import Mathlib

/-!
Verification of the Personal Knowledge-Base Engine (apps/issue-3) of the
Apptopia repository.  Each Python module relevant to the checked claims is
shallowly embedded: pure functions become Lean functions on `String`, `Nat`,
`Int` and `Rat` (Python floats are modelled as exact rationals), stateful
methods become explicit state passing, fallible code returns `Except`, and
the filesystem is modelled as a boolean predicate on path strings.
-/

namespace Apptopia

/-! ## Python string primitives

Helpers mirroring the Python string operations used by the sources.
Python whitespace is modelled by its ASCII subset, which covers every
input appearing in the repository and in the concrete witnesses below. -/

/-- ASCII model of Python `str.isspace` / the regex class `\s`. -/
def isPySpace (c : Char) : Bool :=
  c = ' ' || c = '\t' || c = '\n' || c = '\r' || c = '\x0b' || c = '\x0c'

/-- Python `str.strip()` on a character list: drop whitespace from both ends. -/
def stripChars (cs : List Char) : List Char :=
  ((cs.dropWhile isPySpace).reverse.dropWhile isPySpace).reverse

/-- Python `str.strip()`. -/
def pyStrip (s : String) : String :=
  ⟨stripChars s.data⟩

/-- Python `len(s)` (number of characters). -/
def pyLen (s : String) : Nat := s.data.length

/-- Split a character list on a separator character (Python
`s.split(sep)` for a one-character separator): always at least one
piece, empty pieces preserved. -/
def splitListOn (sep : Char) : List Char → List (List Char)
  | [] => [[]]
  | c :: rest =>
    let r := splitListOn sep rest
    if c = sep then [] :: r
    else (c :: r.headD []) :: r.tail

/-- Join character lists with a separator character
(`sep.join(pieces)`). -/
def joinWithChar (sep : Char) : List (List Char) → List Char
  | [] => []
  | [x] => x
  | x :: y :: rest => x ++ sep :: joinWithChar sep (y :: rest)

/-- `Path(p).stem`: the final path component without its last suffix.
Mirrors pathlib: the suffix is the part after the last dot of the file
name, provided that dot is not the first character of the name. -/
def pathStem (p : String) : String :=
  let name := (splitListOn '/' p.data).getLastD []
  match name.reverse.findIdx? (fun c => c = '.') with
  | none => ⟨name⟩
  | some i =>
    let dotPos := name.length - 1 - i
    if dotPos = 0 then ⟨name⟩ else ⟨name.take dotPos⟩

/-- Path components for `pathlib` prefix tests: split on `/`, dropping
empty components. -/
def pathParts (p : String) : List String :=
  ((splitListOn '/' p.data).filter (fun c => c ≠ [])).map (fun c => (⟨c⟩ : String))

/-- Whether a path string denotes an absolute path. -/
def pathIsAbsolute (p : String) : Bool :=
  match p.data with
  | '/' :: _ => true
  | _ => false

/-- Model of `Path(a).relative_to(Path(b))` succeeding: `b` is a
component-wise prefix of `a` with the same anchor. -/
def pathRelativeToOk (a b : String) : Bool :=
  pathIsAbsolute a = pathIsAbsolute b && (pathParts b).isPrefixOf (pathParts a)

/-! ## backend/models/document.py -/

/-- `DocumentStatus` (document.py line 14). -/
inductive DocumentStatus where
  | active
  | frozen
  | pending
  | error
deriving DecidableEq, Repr

/-- `DocumentStatus.value` strings. -/
def DocumentStatus.value : DocumentStatus → String
  | .active => "active"
  | .frozen => "frozen"
  | .pending => "pending"
  | .error => "error"

/-- `DocumentStatus(s)` enum lookup: `some` on a valid value string,
`none` models the `ValueError` raised otherwise. -/
def DocumentStatus.ofValue (s : String) : Option DocumentStatus :=
  if s = "active" then some .active
  else if s = "frozen" then some .frozen
  else if s = "pending" then some .pending
  else if s = "error" then some .error
  else none

/-- `DocumentMetadata` (document.py line 31); the dynamic
`custom_fields` dictionary is modelled as a string association list,
which is all the migration code reads and writes. -/
structure DocumentMetadata where
  tags : List String := []
  aliases : List String := []
  custom_fields : List (String × String) := []
  title : Option String := none
  headings : List String := []
  word_count : Nat := 0
deriving DecidableEq, Repr

/-- `DocumentChunk` (document.py line 63). -/
structure DocumentChunk where
  chunk_id : String
  document_id : String
  content : String
  start_line : Int
  end_line : Int
  metadata : List (String × String) := []
  embedding : Option (List Rat) := none
deriving DecidableEq, Repr

/-- `Relationship` (document.py line 138).  Its dataclass fields — note
that there is no `target_doc`, `type` or `score` field. -/
structure Relationship where
  source_doc_id : String
  target_doc_id : String
  relationship_type : String
  strength : Rat := 1
  metadata : List (String × String) := []
  keyword_score : Rat := 0
  vector_score : Rat := 0
  manual_link_score : Rat := 0
deriving DecidableEq, Repr

/-- `Document` (document.py line 78).  Paths are path strings. -/
structure Document where
  doc_id : String
  file_path : String
  relative_path : String
  source_folder : String
  raw_content : String
  parsed_content : String
  metadata : DocumentMetadata := {}
  chunks : List DocumentChunk := []
  relationships : List Relationship := []
  status : DocumentStatus := .pending
  file_size : Nat := 0
  file_hash : String := ""
deriving DecidableEq, Repr

/-- A Python truthiness test for `Optional[str]`: `None` and `""` are falsy. -/
def optStrTruthy : Option String → Bool
  | none => false
  | some s => s ≠ ""

/-- `Document.__post_init__` (document.py line 107): force status
`frozen` when the file does not exist on the filesystem `fs`, and
default the title to the filename stem when unset.  Every `Document(...)`
construction in the sources goes through this normalization. -/
def documentPostInit (fs : String → Bool) (d : Document) : Document :=
  let d := if fs d.file_path then d else { d with status := .frozen }
  if optStrTruthy d.metadata.title then d
  else { d with metadata := { d.metadata with title := some (pathStem d.file_path) } }

/-! ## backend/graph/builder.py — `GraphEdge.calculate_weight` -/

/-- `GraphEdge` (builder.py line 40).  Scores are rationals modelling the
Python floats. -/
structure GraphEdge where
  source_id : String
  target_id : String
  weight : Rat := 0
  wikilink_score : Rat := 0
  vector_score : Rat := 0
  keyword_score : Rat := 0
  relationship_type : String := "computed"
deriving DecidableEq, Repr

/-- `GraphEdge.calculate_weight` (builder.py line 51): the combined
weight is `0.2·wikilink + 0.5·vector + 0.3·keyword`. -/
def GraphEdge.calculate_weight (e : GraphEdge) : GraphEdge :=
  { e with weight :=
      e.wikilink_score * (2 / 10) +
      e.vector_score * (5 / 10) +
      e.keyword_score * (3 / 10) }

/-! ## backend/graph/builder.py — nodes, graph, GraphBuilder -/

/-- `GraphNode` (builder.py line 26); its metadata dict holds the word
count and chunk count written by `build_graph`. -/
structure GraphNode where
  doc_id : String
  title : String
  file_path : String
  tags : List String := []
  word_count : Nat := 0
  chunk_count : Nat := 0
  degree : Nat := 0
  centrality : Rat := 0
  community : Option Int := none
deriving DecidableEq, Repr

/-- Insertion-ordered dictionary lookup (`d.get(k)` / `d[k]`). -/
def dictGet? {α : Type} (d : List (String × α)) (k : String) : Option α :=
  (d.find? (fun p => p.1 = k)).map (fun p => p.2)

/-- Python dict assignment `d[k] = v`: update in place, else append. -/
def dictSet {α : Type} (d : List (String × α)) (k : String) (v : α) :
    List (String × α) :=
  if (d.find? (fun p => p.1 = k)).isSome then
    d.map (fun p => if p.1 = k then (p.1, v) else p)
  else d ++ [(k, v)]

/-- Apply `f` to the entry at key `k` (used for `nodes[k].degree += 1`). -/
def dictModify {α : Type} (d : List (String × α)) (k : String) (f : α → α) :
    List (String × α) :=
  d.map (fun p => if p.1 = k then (p.1, f p.2) else p)

/-- `DocumentGraph` (builder.py line 61): an insertion-ordered node
dictionary and an edge list. -/
structure DocumentGraph where
  nodes : List (String × GraphNode) := []
  edges : List GraphEdge := []
deriving Repr

/-- `DocumentGraph.add_node` (builder.py line 81). -/
def DocumentGraph.add_node (g : DocumentGraph) (n : GraphNode) : DocumentGraph :=
  { g with nodes := dictSet g.nodes n.doc_id n }

/-- `DocumentGraph.add_edge` (builder.py line 85): append the edge and
bump the degree of both endpoints when present. -/
def DocumentGraph.add_edge (g : DocumentGraph) (e : GraphEdge) : DocumentGraph :=
  let nodes := if (dictGet? g.nodes e.source_id).isSome then
    dictModify g.nodes e.source_id (fun n => { n with degree := n.degree + 1 })
  else g.nodes
  let nodes := if (dictGet? nodes e.target_id).isSome then
    dictModify nodes e.target_id (fun n => { n with degree := n.degree + 1 })
  else nodes
  { nodes := nodes, edges := g.edges ++ [e] }

/-- ASCII model of Python `str.lower()`. -/
def pyLower (s : String) : String := ⟨s.data.map Char.toLower⟩

/-- ASCII model of the regex class `\w`. -/
def isWordChar (c : Char) : Bool := c.isAlphanum || c = '_'

/-- Maximal runs of word characters: the matches of `\b\w+\b`.  Each
step consumes at least one character, so the character-count fuel of
`wordRuns` is never exhausted. -/
def wordRunsAux : Nat → List Char → List (List Char)
  | 0, _ => []
  | _ + 1, [] => []
  | fuel + 1, c :: rest =>
    if isWordChar c then
      (c :: rest.takeWhile isWordChar) :: wordRunsAux fuel (rest.dropWhile isWordChar)
    else
      wordRunsAux fuel rest

/-- The matches of `\b\w+\b` over a character list. -/
def wordRuns (cs : List Char) : List (List Char) :=
  wordRunsAux cs.length cs

/-- `GraphBuilder._extract_keywords` (builder.py line 324): lowercase
tag components and title words of length at least `keyword_min_length`,
as a set. -/
def extractKeywords (keyword_min_length : Nat) (doc : Document) : Finset String :=
  let tagParts := doc.metadata.tags.flatMap (fun tag =>
    (splitListOn '/' tag.data).filterMap (fun part =>
      if part.length ≥ keyword_min_length then some (pyLower ⟨part⟩) else none))
  let title := match doc.metadata.title with
    | some t => if t ≠ "" then t else pathStem doc.file_path
    | none => pathStem doc.file_path
  let titleWords := (wordRuns (pyLower title).data).filterMap (fun w =>
    if w.length ≥ keyword_min_length then some (⟨w⟩ : String) else none)
  tagParts.toFinset ∪ titleWords.toFinset

/-- `GraphBuilder._calculate_keyword_score` (builder.py line 301):
Jaccard similarity of the two keyword sets. -/
def calculateKeywordScore (keyword_min_length : Nat) (d1 d2 : Document) : Rat :=
  let k1 := extractKeywords keyword_min_length d1
  let k2 := extractKeywords keyword_min_length d2
  if k1 = ∅ ∨ k2 = ∅ then 0
  else
    let inter := (k1 ∩ k2).card
    let union := (k1 ∪ k2).card
    if union > 0 then (inter : Rat) / (union : Rat) else 0

/-- `GraphBuilder._calculate_wikilink_score` (builder.py line 251):
1.0 iff either document carries a `wikilink` / `wikilink_header`
relationship targeting the other. -/
def calculateWikilinkScore (d1 d2 : Document) : Rat :=
  if d1.relationships.any (fun rel =>
      rel.target_doc_id = d2.doc_id &&
      (rel.relationship_type = "wikilink" || rel.relationship_type = "wikilink_header")) then 1
  else if d2.relationships.any (fun rel =>
      rel.target_doc_id = d1.doc_id &&
      (rel.relationship_type = "wikilink" || rel.relationship_type = "wikilink_header")) then 1
  else 0

/-- `GraphBuilder._calculate_vector_score` (builder.py line 271).  The
square root over floats is abstracted as the parameter `sqrtQ`; the
remaining arithmetic is exact. -/
def calculateVectorScore (sqrtQ : Rat → Rat) (emb : List (String × List Rat))
    (id1 id2 : String) : Rat :=
  match dictGet? emb id1, dictGet? emb id2 with
  | some vec1, some vec2 =>
    let dot := ((vec1.zip vec2).map (fun p => p.1 * p.2)).sum
    let magnitude1 := sqrtQ ((vec1.map (fun a => a * a)).sum)
    let magnitude2 := sqrtQ ((vec2.map (fun b => b * b)).sum)
    if magnitude1 = 0 ∨ magnitude2 = 0 then 0
    else
      let similarity := dot / (magnitude1 * magnitude2)
      max 0 (min 1 ((similarity + 1) / 2))
  | _, _ => 0

/-- `GraphBuilder._build_edge` (builder.py line 205).  The embeddings
argument models the Python optional dict; `None` and the empty dict are
both falsy, so both are represented by the empty list. -/
def buildEdge (sqrtQ : Rat → Rat) (keyword_min_length : Nat)
    (emb : List (String × List Rat)) (d1 d2 : Document) : Option GraphEdge :=
  let e : GraphEdge := { source_id := d1.doc_id, target_id := d2.doc_id }
  let e := { e with wikilink_score := calculateWikilinkScore d1 d2 }
  let e := if emb ≠ [] then
    { e with vector_score := calculateVectorScore sqrtQ emb d1.doc_id d2.doc_id }
  else e
  let e := { e with keyword_score := calculateKeywordScore keyword_min_length d1 d2 }
  let e := e.calculate_weight
  let e :=
    if e.wikilink_score > 0 then { e with relationship_type := "wikilink" }
    else if e.vector_score > e.keyword_score then { e with relationship_type := "similarity" }
    else if e.keyword_score > 0 then { e with relationship_type := "keyword" }
    else e
  if e.weight > 0 then some e else none

/-- The unordered document pairs of `build_graph` step 2, in loop order. -/
def docPairs : List Document → List (Document × Document)
  | [] => []
  | d :: rest => rest.map (fun d2 => (d, d2)) ++ docPairs rest

/-- One edge list of `_prune_edges`'s `node_edges` grouping:
make sure a key exists (with an empty list) in the grouping dict. -/
def ensureKey (d : List (String × List (Nat × GraphEdge))) (k : String) :
    List (String × List (Nat × GraphEdge)) :=
  if (d.find? (fun p => p.1 = k)).isSome then d else d ++ [(k, [])]

/-- Append an incident edge to the grouping entry of `k`. -/
def appendAt (d : List (String × List (Nat × GraphEdge))) (k : String)
    (v : Nat × GraphEdge) : List (String × List (Nat × GraphEdge)) :=
  d.map (fun p => if p.1 = k then (p.1, p.2 ++ [v]) else p)

/-- `node_edges` of `_prune_edges` (builder.py line 362): group the
indexed edges by endpoint, in first-encounter key order.  The index
plays the role of the Python object identity `id(edge)`. -/
def groupNodeEdges (edges : List (Nat × GraphEdge)) :
    List (String × List (Nat × GraphEdge)) :=
  edges.foldl (fun d (ie : Nat × GraphEdge) =>
    let d := ensureKey d ie.2.source_id
    let d := ensureKey d ie.2.target_id
    let d := appendAt d ie.2.source_id ie
    appendAt d ie.2.target_id ie) []

/-- Stable insertion preserving descending key order: walk past strictly
greater keys, insert before the first key less than or equal.  Used to
model Python's stable `list.sort(key=…, reverse=True)`. -/
def insertDescBy {α : Type} (key : α → Rat) (x : α) : List α → List α
  | [] => [x]
  | y :: ys => if key y > key x then y :: insertDescBy key x ys else x :: y :: ys

/-- Stable sort by `key` descending (Python `sort(key=…, reverse=True)`). -/
def pySortDesc {α : Type} (key : α → Rat) (l : List α) : List α :=
  l.foldr (insertDescBy key) []

/-- The set of edge indices voted for in `_prune_edges` (builder.py line
373): every node votes for its top `max_edges_per_node` incident edges
by weight. -/
def pruneVotes (max_edges_per_node : Nat) (edges : List (Nat × GraphEdge)) :
    List Nat :=
  ((groupNodeEdges edges).map (fun p =>
    (pySortDesc (fun ie => ie.2.weight) p.2).take max_edges_per_node)).flatten.map
    (fun ie => ie.1)

/-- `GraphBuilder._prune_edges` (builder.py line 352): keep the edges
that received at least one vote, then recompute node degrees.
`max_edges_per_node` is an integer; non-positive values skip pruning. -/
def pruneEdges (max_edges_per_node : Int) (g : DocumentGraph) : DocumentGraph :=
  if max_edges_per_node ≤ 0 then g
  else
    let votes := pruneVotes max_edges_per_node.toNat g.edges.enum
    let kept := (g.edges.enum.filter (fun ie => ie.1 ∈ votes)).map (fun ie => ie.2)
    let nodes := g.nodes.map (fun p => (p.1, { p.2 with degree := 0 }))
    let nodes := kept.foldl (fun ns e =>
      let ns := dictModify ns e.source_id (fun n => { n with degree := n.degree + 1 })
      dictModify ns e.target_id (fun n => { n with degree := n.degree + 1 })) nodes
    { nodes := nodes, edges := kept }

/-- The edge-building step of `build_graph` (builder.py line 193): add
the pair's edge when it exists and its weight reaches the threshold. -/
def buildGraphEdgeStep (sqrtQ : Rat → Rat) (min_edge_weight : Rat)
    (keyword_min_length : Nat) (emb : List (String × List Rat))
    (g : DocumentGraph) (pair : Document × Document) : DocumentGraph :=
  match buildEdge sqrtQ keyword_min_length emb pair.1 pair.2 with
  | some e => if e.weight ≥ min_edge_weight then g.add_edge e else g
  | none => g

/-- The node-building step of `build_graph` (builder.py lines 174-185):
one `GraphNode` per document, the title falling back to the filename
stem. -/
def buildGraphNodeStep (g : DocumentGraph) (doc : Document) : DocumentGraph :=
  g.add_node
    { doc_id := doc.doc_id
      title := match doc.metadata.title with
        | some t => if t ≠ "" then t else pathStem doc.file_path
        | none => pathStem doc.file_path
      file_path := doc.file_path
      tags := doc.metadata.tags
      word_count := doc.metadata.word_count
      chunk_count := doc.chunks.length }

/-- `build_graph` before pruning (builder.py lines 171-198): nodes from
documents, then one candidate edge per unordered pair. -/
def buildGraphRaw (sqrtQ : Rat → Rat) (min_edge_weight : Rat)
    (keyword_min_length : Nat)
    (documents : List Document) (emb : List (String × List Rat)) : DocumentGraph :=
  let g : DocumentGraph := {}
  let g := documents.foldl buildGraphNodeStep g
  (docPairs documents).foldl
    (buildGraphEdgeStep sqrtQ min_edge_weight keyword_min_length emb) g

/-- `GraphBuilder.build_graph` (builder.py line 156). -/
def buildGraph (sqrtQ : Rat → Rat) (min_edge_weight : Rat)
    (max_edges_per_node : Int) (keyword_min_length : Nat)
    (documents : List Document) (emb : List (String × List Rat)) : DocumentGraph :=
  pruneEdges max_edges_per_node
    (buildGraphRaw sqrtQ min_edge_weight keyword_min_length documents emb)

/-! ## backend/migration/exporter.py and importer.py

A file that may hold a JSON value: it can be absent, hold invalid JSON,
or hold a parsed value. -/

inductive JsonFile (α : Type) where
  | missing
  | invalid (msg : String)
  | valid (val : α)
deriving DecidableEq, Repr

/-- One serialized chunk of `documents.json`.  Fields are `Option`s: a
`none` models a key missing from the JSON object (the exporter always
writes every key). -/
structure ChunkEntry where
  chunk_id : Option String := none
  content : Option String := none
  document_id : Option String := none
  start_line : Option Int := none
  end_line : Option Int := none
  metadata : Option (List (String × String)) := none
deriving DecidableEq, Repr

/-- One serialized relationship of `documents.json`. -/
structure RelEntry where
  source_doc_id : Option String := none
  target_doc_id : Option String := none
  relationship_type : Option String := none
  strength : Option Rat := none
  keyword_score : Option Rat := none
  vector_score : Option Rat := none
  manual_link_score : Option Rat := none
  metadata : Option (List (String × String)) := none
deriving DecidableEq, Repr

/-- The serialized metadata object of a document.  The inner `Option` of
`title` models JSON `null` (a `None` title). -/
structure MetaEntry where
  title : Option (Option String) := none
  tags : Option (List String) := none
  aliases : Option (List String) := none
  word_count : Option Nat := none
  headings : Option (List String) := none
  custom_fields : Option (List (String × String)) := none
deriving DecidableEq, Repr

/-- One serialized document of `documents.json`. -/
structure DocEntry where
  doc_id : Option String := none
  file_path : Option String := none
  relative_path : Option String := none
  source_folder : Option String := none
  raw_content : Option String := none
  parsed_content : Option String := none
  metadata : Option MetaEntry := none
  chunks : Option (List ChunkEntry) := none
  relationships : Option (List RelEntry) := none
  status : Option String := none
  file_size : Option Nat := none
  file_hash : Option String := none
deriving DecidableEq, Repr

/-- The chunk serialization written by `export_documents`
(exporter.py line 99): every key present; the embedding is not written. -/
def exportChunkEntry (chunk : DocumentChunk) : ChunkEntry :=
  { chunk_id := some chunk.chunk_id
    content := some chunk.content
    document_id := some chunk.document_id
    start_line := some chunk.start_line
    end_line := some chunk.end_line
    metadata := some chunk.metadata }

/-- The relationship serialization written by `export_documents`
(exporter.py line 110): every key present. -/
def exportRelEntry (rel : Relationship) : RelEntry :=
  { source_doc_id := some rel.source_doc_id
    target_doc_id := some rel.target_doc_id
    relationship_type := some rel.relationship_type
    strength := some rel.strength
    keyword_score := some rel.keyword_score
    vector_score := some rel.vector_score
    manual_link_score := some rel.manual_link_score
    metadata := some rel.metadata }

/-- The serialization of one document written by
`ExportManager.export_documents` (exporter.py line 83): every key is
present.  Chunk embeddings and metadata dates are not written. -/
def exportDocument (doc : Document) : DocEntry :=
  { doc_id := some doc.doc_id
    file_path := some doc.file_path
    relative_path := some doc.relative_path
    source_folder := some doc.source_folder
    raw_content := some doc.raw_content
    parsed_content := some doc.parsed_content
    metadata := some
      { title := some doc.metadata.title
        tags := some doc.metadata.tags
        aliases := some doc.metadata.aliases
        word_count := some doc.metadata.word_count
        headings := some doc.metadata.headings
        custom_fields := some doc.metadata.custom_fields }
    chunks := some (doc.chunks.map exportChunkEntry)
    relationships := some (doc.relationships.map exportRelEntry)
    status := some doc.status.value
    file_size := some doc.file_size
    file_hash := some doc.file_hash }

/-- `ExportManager.export_documents` over a document list: the contents
of `documents.json`. -/
def exportDocuments (documents : List Document) : List DocEntry :=
  documents.map exportDocument

/-- Python `d["k"]`: a missing key raises `KeyError`. -/
def require {α : Type} (key : String) : Option α → Except String α
  | some a => .ok a
  | none => .error ("KeyError: " ++ key)

/-- Reconstruction of one chunk inside `ImportManager.import_documents`
(importer.py line 136). -/
def reconstructChunk (c : ChunkEntry) : Except String DocumentChunk := do
  let chunk_id ← require "chunk_id" c.chunk_id
  let content ← require "content" c.content
  let document_id ← require "document_id" c.document_id
  let start_line ← require "start_line" c.start_line
  let end_line ← require "end_line" c.end_line
  pure { chunk_id := chunk_id, content := content, document_id := document_id,
         start_line := start_line, end_line := end_line,
         metadata := c.metadata.getD [] }

/-- Reconstruction of one relationship inside
`ImportManager.import_documents` (importer.py line 149). -/
def reconstructRel (r : RelEntry) : Except String Relationship := do
  let source_doc_id ← require "source_doc_id" r.source_doc_id
  let target_doc_id ← require "target_doc_id" r.target_doc_id
  let relationship_type ← require "relationship_type" r.relationship_type
  let strength ← require "strength" r.strength
  pure { source_doc_id := source_doc_id, target_doc_id := target_doc_id,
         relationship_type := relationship_type, strength := strength,
         keyword_score := r.keyword_score.getD 0,
         vector_score := r.vector_score.getD 0,
         manual_link_score := r.manual_link_score.getD 0,
         metadata := r.metadata.getD [] }

/-- Reconstruction of one document inside
`ImportManager.import_documents` (importer.py line 121): keys are read
in source order, a missing key raises `KeyError`, an invalid status
string raises `ValueError`, and the `Document` constructor runs
`__post_init__` against the current filesystem `fs`. -/
def reconstructDocument (fs : String → Bool) (e : DocEntry) :
    Except String Document := do
  let md ← require "metadata" e.metadata
  let title ← require "title" md.title
  let tags ← require "tags" md.tags
  let aliases ← require "aliases" md.aliases
  let word_count ← require "word_count" md.word_count
  let headings ← require "headings" md.headings
  let custom_fields ← require "custom_fields" md.custom_fields
  let chunkEntries ← require "chunks" e.chunks
  let chunks ← chunkEntries.mapM reconstructChunk
  let relEntries ← require "relationships" e.relationships
  let relationships ← relEntries.mapM reconstructRel
  let doc_id ← require "doc_id" e.doc_id
  let file_path ← require "file_path" e.file_path
  let relative_path ← require "relative_path" e.relative_path
  let source_folder ← require "source_folder" e.source_folder
  let raw_content ← require "raw_content" e.raw_content
  let parsed_content ← require "parsed_content" e.parsed_content
  let statusStr ← require "status" e.status
  let status ← match DocumentStatus.ofValue statusStr with
    | some st => Except.ok st
    | none => Except.error ("ValueError: " ++ statusStr ++ " is not a valid DocumentStatus")
  pure (documentPostInit fs
    { doc_id := doc_id, file_path := file_path, relative_path := relative_path,
      source_folder := source_folder, raw_content := raw_content,
      parsed_content := parsed_content,
      metadata := { title := title, tags := tags, aliases := aliases,
                    word_count := word_count, headings := headings,
                    custom_fields := custom_fields },
      chunks := chunks, relationships := relationships, status := status,
      file_size := e.file_size.getD 0, file_hash := e.file_hash.getD "" })

/-- `ImportManager.import_documents` (importer.py line 98): returns the
reconstructed documents together with the accumulated error strings; a
failing document is skipped, the rest continue.  `importStep` is the
loop body for one entry. -/
def importStep (fs : String → Bool) (acc : List Document × List String)
    (e : DocEntry) : List Document × List String :=
  match reconstructDocument fs e with
  | .ok doc => (acc.1 ++ [doc], acc.2)
  | .error err =>
    (acc.1, acc.2 ++ ["Failed to import document " ++ e.doc_id.getD "unknown"
      ++ ": " ++ err])

/-- `import_documents` over the parsed `documents.json` file. -/
def importDocuments (fs : String → Bool) (file : JsonFile (List DocEntry)) :
    List Document × List String :=
  match file with
  | .missing => ([], ["Documents file not found"])
  | .invalid msg => ([], ["Invalid documents JSON: " ++ msg])
  | .valid entries => entries.foldl (importStep fs) ([], [])

/-- The import source directory seen by `ImportManager.import_all`:
the manifest file, the documents file, whether a `vector_db` folder is
present, and the vector store's persistence directory. -/
structure ImportSource where
  manifest : JsonFile Unit
  documents : JsonFile (List DocEntry)
  vector_db_exists : Bool := true
  persist_directory : Option String := some "./vector_db"
deriving Repr

/-- `ImportResult` (importer.py line 27). -/
structure ImportResult where
  success : Bool
  imported_documents : Nat
  imported_chunks : Nat
  imported_relationships : Nat
  errors : List String
  warnings : List String
deriving DecidableEq, Repr

/-- `ImportManager.load_manifest` (importer.py line 76): `none` with an
error string when the file is absent or its JSON invalid. -/
def loadManifest (m : JsonFile Unit) : Option Unit × List String :=
  match m with
  | .missing => (none, ["Manifest file not found"])
  | .invalid msg => (none, ["Invalid manifest JSON: " ++ msg])
  | .valid u => (some u, [])

/-- `ImportManager.import_vector_database` (importer.py line 185):
returns success and any warnings.  The `shutil` copy failure branch is
an OS-level fault and is not modelled. -/
def importVectorDatabase (src : ImportSource) : Bool × List String :=
  if !src.vector_db_exists then (false, ["Vector database folder not found"])
  else match src.persist_directory with
    | none => (false, ["Vector store has no persistence directory"])
    | some _ => (true, [])

/-- `ImportManager.import_all` (importer.py line 220): load the
manifest (failure is fatal), reconstruct documents, import the vector
database, and succeed iff at least one document was reconstructed and
no error accumulated. -/
def importAll (fs : String → Bool) (src : ImportSource) : ImportResult :=
  match loadManifest src.manifest with
  | (none, errs) =>
    { success := false, imported_documents := 0, imported_chunks := 0,
      imported_relationships := 0, errors := errs, warnings := [] }
  | (some _, _) =>
    let (documents, docErrors) := importDocuments fs src.documents
    let (_, vectorWarnings) := importVectorDatabase src
    let total_chunks := (documents.map (fun d => d.chunks.length)).sum
    let total_relationships := (documents.map (fun d => d.relationships.length)).sum
    { success := documents.length > 0 && docErrors.isEmpty
      imported_documents := documents.length
      imported_chunks := total_chunks
      imported_relationships := total_relationships
      errors := docErrors
      warnings := vectorWarnings }

/-! ## backend/migration/verifier.py -/

/-- `SourceStatus` (verifier.py line 15). -/
structure SourceStatus where
  path : String
  exists_ : Bool
  document_count : Nat
deriving DecidableEq, Repr

/-- `VerificationReport` (verifier.py line 31). -/
structure VerificationReport where
  total_sources : Nat
  available_sources : Nat
  missing_sources : Nat
  frozen_documents : Nat
  source_statuses : List SourceStatus
deriving DecidableEq, Repr

/-- `SourceVerifier._find_document_source` (verifier.py line 111): the
first declared folder the document's path is relative to, `none`
modelling the falsy empty string. -/
def findDocumentSource (doc : Document) (source_folders : List String) :
    Option String :=
  source_folders.find? (fun folder => pathRelativeToOk doc.file_path folder)

/-- The status transition `verify_sources` applies to one document
(verifier.py lines 79-92): freeze when the matched source is missing,
thaw a frozen document whose source is back. -/
def verifyUpdate (source_folders missing existing : List String)
    (doc : Document) : Document :=
  match findDocumentSource doc source_folders with
  | none => doc
  | some src =>
    if src ∈ missing then { doc with status := .frozen }
    else if doc.status = .frozen ∧ src ∈ existing then { doc with status := .active }
    else doc

/-- The document loop body of `verify_sources`: thread the per-source
counts, the frozen counter, and the updated document list. -/
def verifyStep (source_folders missing existing : List String)
    (acc : List (String × Nat) × Nat × List Document) (doc : Document) :
    List (String × Nat) × Nat × List Document :=
  let (counts, frozen_count, docs) := acc
  match findDocumentSource doc source_folders with
  | none => (counts, frozen_count, docs ++ [doc])
  | some src =>
    let counts := dictSet counts src ((dictGet? counts src).getD 0 + 1)
    if src ∈ missing then
      (counts, frozen_count + 1, docs ++ [{ doc with status := .frozen }])
    else if doc.status = .frozen ∧ src ∈ existing then
      (counts, frozen_count, docs ++ [{ doc with status := .active }])
    else
      (counts, frozen_count, docs ++ [doc])

/-- `SourceVerifier.verify_sources` (verifier.py line 53) against
filesystem `fs`: split folders into existing/missing sets, update each
document's status, and report.  Python set sizes are modelled by
deduplicated lists. -/
def verifySources (fs : String → Bool) (documents : List Document)
    (source_folders : List String) : VerificationReport × List Document :=
  let existing := (source_folders.filter fs).dedup
  let missing := (source_folders.filter (fun f => !fs f)).dedup
  let (counts, frozen_count, docs) :=
    documents.foldl (verifyStep source_folders missing existing) ([], 0, [])
  let statuses := source_folders.map (fun folder =>
    { path := folder, exists_ := folder ∈ existing,
      document_count := (dictGet? counts folder).getD 0 : SourceStatus })
  ({ total_sources := source_folders.length
     available_sources := existing.length
     missing_sources := missing.length
     frozen_documents := frozen_count
     source_statuses := statuses }, docs)

/-! ## backend/rag/conversation.py -/

/-- `LLMMessage` (llm_client.py): role and content. -/
structure LLMMessage where
  role : String
  content : String
deriving DecidableEq, Repr

/-- The token estimator of `Conversation.get_messages` (conversation.py
line 68): `len(content) // 4`. -/
def estimateTokens (m : LLMMessage) : Nat := pyLen m.content / 4

/-- The packing loop of `Conversation.get_messages` (conversation.py
line 71): walk the non-system messages newest first, adding each while
it fits the budget, stopping at the first that does not.  Returns the
accepted messages in iteration (newest-first) order. -/
def packMessages (max_tokens : Nat) : List LLMMessage → Nat → List LLMMessage
  | [], _ => []
  | m :: rest, tokens_used =>
    let message_tokens := estimateTokens m
    if tokens_used + message_tokens ≤ max_tokens then
      m :: packMessages max_tokens rest (tokens_used + message_tokens)
    else []

/-- `Conversation.get_messages` (conversation.py line 49): unbounded
returns a copy; bounded always includes the system messages, then packs
the most recent other messages, each inserted before the previously
accepted ones so chronology is preserved. -/
def getMessages (messages : List LLMMessage) (max_tokens : Option Nat) :
    List LLMMessage :=
  match max_tokens with
  | none => messages
  | some mt =>
    let system_messages := messages.filter (fun m => m.role = "system")
    let other_messages := messages.filter (fun m => m.role ≠ "system")
    let tokens_used := (system_messages.map estimateTokens).sum
    system_messages ++ (packMessages mt other_messages.reverse tokens_used).reverse

/-! ## backend/rag/query_processor.py -/

/-- The metadata dictionary attached to a vector-store hit, with the
keys `_retrieve_chunks` reads. -/
structure ChromaMetadata where
  document_id : Option String := none
  start_line : Option Int := none
  end_line : Option Int := none
  source_file : Option String := none
  file_path : Option String := none
deriving DecidableEq, Repr

/-- The per-query lists of a vector-store response
(`search_results['ids'][0]` and friends). -/
structure ChromaResponse where
  ids : List String
  distances : List Rat
  metadatas : List ChromaMetadata
  documents : List String
deriving Repr

/-- The chunk object built by `_retrieve_chunks` (query_processor.py
line 213).  It mirrors `DocumentChunk`; its dynamic metadata dict is
kept as the typed `ChromaMetadata` record it was read from. -/
structure RetrievalChunk where
  chunk_id : String
  document_id : String
  content : String
  start_line : Int
  end_line : Int
  metadata : ChromaMetadata
deriving DecidableEq, Repr

/-- `RetrievalResult` (query_processor.py line 18).  Its
`__post_init__` range check cannot fire because `_retrieve_chunks`
clamps every score into `[0, 1]` before construction. -/
structure RetrievalResult where
  chunk : RetrievalChunk
  score : Rat
  document_path : String
deriving DecidableEq, Repr

/-- The distance-to-score conversion of `_retrieve_chunks`
(query_processor.py line 195): unnormalized distances above 2 use a
bounded fallback, else `1 − d/2`; both clamped into `[0, 1]`. -/
def distanceToScore (distance : Rat) : Rat :=
  if distance > 2 then max 0 (min 1 (1 / (1 + distance / 100)))
  else max 0 (min 1 (1 - distance / 2))

/-- The per-hit loop body of `_retrieve_chunks` (query_processor.py
lines 190-226): score the hit, drop it when below `min_score`,
otherwise append the built result. -/
def retrieveStep (min_score : Rat) (resp : ChromaResponse)
    (acc : List RetrievalResult) (p : Nat × String) : List RetrievalResult :=
  let (i, chunk_id) := p
  let distance := resp.distances.getD i 1
  let score := distanceToScore distance
  if score < min_score then acc
  else
    let metadata := resp.metadatas.getD i {}
    let content := resp.documents.getD i ""
    let chunk : RetrievalChunk :=
      { chunk_id := chunk_id
        document_id := metadata.document_id.getD ""
        content := content
        start_line := metadata.start_line.getD 0
        end_line := metadata.end_line.getD 0
        metadata := metadata }
    acc ++ [{ chunk := chunk, score := score,
              document_path := metadata.source_file.getD
                (metadata.file_path.getD "unknown") }]

/-- `QueryProcessor._retrieve_chunks` (query_processor.py line 160)
given the vector store's response: convert distances to scores, drop
hits below `min_score`, and sort by score descending (Python's stable
sort). -/
def retrieveChunks (min_score : Rat) (resp : ChromaResponse) :
    List RetrievalResult :=
  pySortDesc (fun r => r.score)
    (resp.ids.enum.foldl (retrieveStep min_score resp) [])

/-! ## backend/core/chunker.py

The repository environment has no `tiktoken`, so the chunker's token
counter is the documented fallback `len(text) // 3`; the sentence
splitter realizes the regex
`(?<=[.!?])\s+|(?<=[。！？])|(?:\n\n+)` of `split_by_sentences`. -/

/-- `DocumentChunker.count_tokens` (chunker.py line 65), fallback
branch: `len(text) // 3`. -/
def countTokens (text : String) : Nat := pyLen text / 3

/-- English sentence terminators of `split_by_sentences`. -/
def isEnTerm (c : Char) : Bool := c = '.' || c = '!' || c = '?'

/-- Chinese sentence terminators of `split_by_sentences`. -/
def isZhTerm (c : Char) : Bool := c = '。' || c = '！' || c = '？'

/-- Whether the next character exists and is whitespace. -/
def headIsSpace : List Char → Bool
  | c :: _ => isPySpace c
  | [] => false

/-- Whether the next character is a newline. -/
def headIsNewline : List Char → Bool
  | c :: _ => c = '\n'
  | [] => false

/-- The raw split of `re.split` for the sentence pattern: walking the
text, a cut happens after an English terminator followed by a greedy
whitespace run (the run is the separator), after a Chinese terminator
(zero-width separator), or at a run of two or more newlines (the run is
the separator).  `acc` holds the current piece reversed. -/
def splitPiecesAux : Nat → List Char → List Char → List (List Char)
  | 0, _, acc => [acc.reverse]
  | _ + 1, [], acc => [acc.reverse]
  | fuel + 1, c :: rest, acc =>
    if isEnTerm c ∧ headIsSpace rest then
      (c :: acc).reverse :: splitPiecesAux fuel (rest.dropWhile isPySpace) []
    else if isZhTerm c then
      (c :: acc).reverse :: splitPiecesAux fuel rest []
    else if c = '\n' ∧ headIsNewline rest then
      acc.reverse :: splitPiecesAux fuel (rest.dropWhile (fun x => x = '\n')) []
    else
      splitPiecesAux fuel rest (c :: acc)

/-- The raw regex split; each step consumes at least one character, so
the character-count fuel is never exhausted. -/
def splitPieces (cs : List Char) : List (List Char) :=
  splitPiecesAux cs.length cs []

/-- `DocumentChunker.split_by_sentences` (chunker.py line 82): split,
strip each piece, drop the empty ones. -/
def splitBySentences (text : List Char) : List String :=
  ((splitPieces text).map stripChars).filterMap (fun s =>
    if s.isEmpty then none else some ⟨s⟩)

/-- Whether the next character is a backtick. -/
def headIsBacktick : List Char → Bool
  | x :: _ => x = '`'
  | [] => false

/-- Locate the first occurrence of three consecutive backticks,
returning the text before it and the suffix starting at it. -/
def findTriple : List Char → Option (List Char × List Char)
  | [] => none
  | c :: rest =>
    if c = '`' ∧ headIsBacktick rest ∧ headIsBacktick rest.tail then
      some ([], c :: rest)
    else
      (findTriple rest).map (fun p => (c :: p.1, p.2))

/-- `DocumentChunker.extract_code_blocks` (chunker.py line 100): the
non-overlapping matches of the lazy pattern `` ```[\s\S]*?``` `` are
replaced by `[CODE_BLOCK]` markers; the matched blocks are returned in
order.  A lazy match runs from one triple backtick to the next; each
match consumes at least six characters, so the character-count fuel is
never exhausted. -/
def extractCodeBlocksAux : Nat → List Char → List String × List Char
  | 0, cs => ([], cs)
  | fuel + 1, cs =>
    match findTriple cs with
    | none => ([], cs)
    | some (pre, rest) =>
      match findTriple (rest.drop 3) with
      | none => ([], cs)
      | some (content, close) =>
        let block : String := ⟨rest.take 3 ++ content ++ close.take 3⟩
        let (blocks, cleanedRest) := extractCodeBlocksAux fuel (close.drop 3)
        (block :: blocks, pre ++ "[CODE_BLOCK]".data ++ cleanedRest)

/-- `extract_code_blocks` on a string. -/
def extractCodeBlocks (text : String) : List String × List Char :=
  extractCodeBlocksAux text.data.length text.data

/-- Find an occurrence of `pat` in `cs`, returning the text before and
after the match. -/
def splitAtSub (pat : List Char) : List Char → Option (List Char × List Char)
  | [] => if pat.isEmpty then some ([], []) else none
  | c :: rest =>
    if pat.isPrefixOf (c :: rest) then some ([], (c :: rest).drop pat.length)
    else (splitAtSub pat rest).map (fun p => (c :: p.1, p.2))

/-- Python `s.replace(pat, repl, 1)`: replace the first occurrence. -/
def replaceOnce (cs pat repl : List Char) : List Char :=
  match splitAtSub pat cs with
  | none => cs
  | some (pre, post) => pre ++ repl ++ post

/-- `Chunk` (chunker.py line 20). -/
structure Chunk where
  text : String
  start_index : Nat
  end_index : Nat
  token_count : Nat
  metadata : List (String × String)
deriving DecidableEq, Repr

/-- `DocumentChunker._reinsert_code_blocks` (chunker.py line 210): in
every chunk whose text holds a `[CODE_BLOCK]` marker, each saved code
block in order replaces the first remaining marker of that chunk. -/
def reinsertCodeBlocks (chunks : List Chunk) (code_blocks : List String) :
    List Chunk :=
  chunks.map (fun ch =>
    if (splitAtSub "[CODE_BLOCK]".data ch.text.data).isSome then
      { ch with text := ⟨code_blocks.foldl
          (fun t code => replaceOnce t "[CODE_BLOCK]".data code.data) ch.text.data⟩ }
    else ch)

/-- `' '.join(sentences)`. -/
def joinSpace (l : List String) : String :=
  ⟨joinWithChar ' ' (l.map String.data)⟩

/-- The overlap-seeding loop of `chunk_text` (chunker.py line 176):
walk the emitted chunk's sentences newest first, keeping each while the
accumulated token count stays within `chunk_overlap`, stopping at the
first that does not fit.  The argument is the reversed sentence list;
the kept sentences are returned in original order with their total. -/
def pickOverlap (chunk_overlap : Nat) : List String → Nat → List String × Nat
  | [], acc => ([], acc)
  | s :: rest, acc =>
    let sent_tokens := countTokens s
    if acc + sent_tokens ≤ chunk_overlap then
      let (l, a) := pickOverlap chunk_overlap rest (acc + sent_tokens)
      (l ++ [s], a)
    else ([], acc)

/-- The running state of the `chunk_text` sentence loop. -/
structure ChunkState where
  current_chunk : List String
  current_tokens : Nat
  current_start : Nat
  chunks : List Chunk

/-- One iteration of the `chunk_text` loop (chunker.py line 157):
when the next sentence would overflow a non-empty chunk, emit the chunk
and reseed from the overlap tail; then append the sentence. -/
def chunkStep (chunk_size chunk_overlap : Nat) (metadata : List (String × String))
    (st : ChunkState) (sentence : String) : ChunkState :=
  let sentence_tokens := countTokens sentence
  let st :=
    if st.current_tokens + sentence_tokens > chunk_size ∧ st.current_chunk ≠ [] then
      let chunk_text := joinSpace st.current_chunk
      let chunk_end := st.current_start + pyLen chunk_text
      let emitted : Chunk :=
        { text := chunk_text, start_index := st.current_start,
          end_index := chunk_end, token_count := st.current_tokens,
          metadata := metadata }
      let (overlap_sentences, overlap_tokens) :=
        pickOverlap chunk_overlap st.current_chunk.reverse 0
      { current_chunk := overlap_sentences
        current_tokens := overlap_tokens
        current_start := chunk_end - pyLen (joinSpace overlap_sentences)
        chunks := st.chunks ++ [emitted] }
    else st
  { st with current_chunk := st.current_chunk ++ [sentence],
            current_tokens := st.current_tokens + sentence_tokens }

/-- The trailing-chunk emission of `chunk_text` (chunker.py line 194). -/
def chunkFinish (metadata : List (String × String)) (st : ChunkState) : List Chunk :=
  if st.current_chunk ≠ [] then
    let chunk_text := joinSpace st.current_chunk
    st.chunks ++ [{ text := chunk_text, start_index := st.current_start,
                    end_index := st.current_start + pyLen chunk_text,
                    token_count := st.current_tokens, metadata := metadata }]
  else st.chunks

/-- `DocumentChunker.chunk_text` (chunker.py line 123). -/
def chunkText (chunk_size chunk_overlap : Nat) (preserve_code_blocks : Bool)
    (metadata : List (String × String)) (text : String) : List Chunk :=
  if text = "" ∨ pyStrip text = "" then []
  else
    let extracted := if preserve_code_blocks then extractCodeBlocks text
      else ([], text.data)
    let code_blocks := extracted.1
    let working_text := extracted.2
    let sentences := splitBySentences working_text
    if sentences = [] then []
    else
      let st := sentences.foldl (chunkStep chunk_size chunk_overlap metadata)
        ⟨[], 0, 0, []⟩
      let chunks := chunkFinish metadata st
      if preserve_code_blocks ∧ code_blocks ≠ [] then
        reinsertCodeBlocks chunks code_blocks
      else chunks

/-! ## backend/parsers/obsidian_parser.py — wikilink extraction -/

/-- A wikilink record as produced by `ObsidianParser._extract_wikilinks`
(obsidian_parser.py line 225): in Python it is a dict with keys
`target`, `header`, `display` and `type`. -/
structure Wikilink where
  target : String
  header : Option String := none
  display : Option String := none
  link_type : String := "wikilink"
deriving DecidableEq, Repr

/-- Characters ending the lazy target group `[^#\]|]+?`. -/
def isTargetDelim (c : Char) : Bool := c = '#' || c = ']' || c = '|'

/-- Characters ending the lazy header group `[^\]|]+?`. -/
def isHeaderDelim (c : Char) : Bool := c = ']' || c = '|'

/-- Try to match the wikilink pattern
`\[\[([^#\]|]+?)(?:#([^\]|]+?))?(?:\|([^\]]+?))?\]\]` at the head of the
text, returning the record and the remainder after the match.  The lazy
groups cannot contain their delimiters, so each matches a maximal
delimiter-free run that must be non-empty. -/
def matchWikilinkAt : List Char → Option (Wikilink × List Char)
  | '[' :: '[' :: rest =>
    let target := rest.takeWhile (fun c => !isTargetDelim c)
    let r1 := rest.dropWhile (fun c => !isTargetDelim c)
    if target.isEmpty then none
    else
      match r1 with
      | '#' :: r2 =>
        let header := r2.takeWhile (fun c => !isHeaderDelim c)
        let r3 := r2.dropWhile (fun c => !isHeaderDelim c)
        if header.isEmpty then none
        else
          match r3 with
          | '|' :: r4 =>
            let display := r4.takeWhile (fun c => c ≠ ']')
            let r5 := r4.dropWhile (fun c => c ≠ ']')
            if display.isEmpty then none
            else
              match r5 with
              | ']' :: ']' :: rem =>
                some ({ target := ⟨target⟩, header := some ⟨header⟩,
                        display := some ⟨display⟩,
                        link_type := "wikilink_header" }, rem)
              | _ => none
          | ']' :: ']' :: rem =>
            some ({ target := ⟨target⟩, header := some ⟨header⟩,
                    link_type := "wikilink_header" }, rem)
          | _ => none
      | '|' :: r4 =>
        let display := r4.takeWhile (fun c => c ≠ ']')
        let r5 := r4.dropWhile (fun c => c ≠ ']')
        if display.isEmpty then none
        else
          match r5 with
          | ']' :: ']' :: rem =>
            some ({ target := ⟨target⟩, display := some ⟨display⟩ }, rem)
          | _ => none
      | ']' :: ']' :: rem => some ({ target := ⟨target⟩ }, rem)
      | _ => none
  | _ => none

/-- The non-overlapping left-to-right scan of
`WIKILINK_PATTERN.findall`.  Each successful match consumes at least
five characters, so the character-count fuel is never exhausted. -/
def extractWikilinksAux : Nat → List Char → List Wikilink
  | 0, _ => []
  | _ + 1, [] => []
  | fuel + 1, c :: rest =>
    match matchWikilinkAt (c :: rest) with
    | some (w, rem) => w :: extractWikilinksAux fuel rem
    | none => extractWikilinksAux fuel rest

/-- `ObsidianParser._extract_wikilinks` (obsidian_parser.py line 210). -/
def extractWikilinks (content : String) : List Wikilink :=
  extractWikilinksAux content.data.length content.data

/-- The frontmatter split of `frontmatter.loads`: a YAML block delimited
by `---` lines at the very start is removed; otherwise the whole buffer
is content.  Modelled on whole lines, which covers the repository's
Markdown corpus. -/
def stripFrontmatter (s : String) : String :=
  let ls := splitListOn '\n' s.data
  match ls with
  | ['-', '-', '-'] :: rest =>
    match rest.findIdx? (fun line => line = ['-', '-', '-']) with
    | some i => ⟨joinWithChar '\n' (rest.drop (i + 1))⟩
    | none => s
  | _ => s

/-- The wikilink list `parse_content(content).wikilinks` used by
`_build_relationships`. -/
def obsidianWikilinks (content : String) : List Wikilink :=
  extractWikilinks (stripFrontmatter content)

/-! ## backend/core/processor.py — `_build_relationships`

`DocumentProcessor._build_relationships` (processor.py line 345) is
dynamically broken: the parser returns wikilink dicts but the loop
calls `.split` on them, the similarity branch reads a nonexistent
`doc.embedding` attribute, and the `Relationship(target_doc=…, type=…,
score=…)` constructions use keyword arguments that the dataclass of
document.py does not declare.  The embedding models each dynamic fault
as an `Except` error at its source location. -/

/-- Python exception values raised by the modelled code. -/
inductive PyError where
  | attributeError (msg : String)
deriving DecidableEq, Repr

/-- `link.split('|')` where `link` is the wikilink dict produced by the
parser (processor.py line 362): a dict has no `split` method, so this
raises `AttributeError`. -/
def wikilinkDictSplit (_ : Wikilink) (_ : String) : Except PyError (List String) :=
  .error (.attributeError "dict object has no attribute split")

/-- `doc.embedding` (processor.py line 378): the `Document` dataclass
declares no `embedding` field, so the access raises `AttributeError`. -/
def documentEmbeddingAttr (_ : Document) : Except PyError (List Rat) :=
  .error (.attributeError "Document object has no attribute embedding")

/-- The body of `_build_relationships` for one document (processor.py
lines 352-404): re-parse the raw content for wikilinks, then walk them.
The first statement of the link loop, `link.split('|')`, raises; the
`Relationship(target_doc=…)` construction further down would raise
`TypeError` but is unreachable.  With no wikilinks, the similarity
branch's `doc.embedding` access raises instead.  On (unreachable)
success the relationships sorted by score, top five, are returned. -/
def buildRelationshipsDoc (parse : String → List Wikilink)
    (doc : Document) : Except PyError (List Relationship) := do
  let wikilinks := parse doc.raw_content
  let relationships ← wikilinks.foldlM
    (fun (rels : List Relationship) link => do
      let _ ← wikilinkDictSplit link "|"
      pure rels) ([] : List Relationship)
  let _ ← documentEmbeddingAttr doc
  pure ((pySortDesc (fun r => r.strength) relationships).take 5)

/-- The document loop of `_build_relationships`: documents are updated
one at a time; an exception aborts the loop, keeping the updates made
so far.  Returns the registry state and the exception, if any. -/
def buildRelationshipsAll (parse : String → List Wikilink) :
    List (String × Document) → List (String × Document) →
    List (String × Document) × Option PyError
  | [], acc => (acc, none)
  | (path, doc) :: rest, acc =>
    match buildRelationshipsDoc parse doc with
    | .ok rels =>
      buildRelationshipsAll parse rest (acc ++ [(path, { doc with relationships := rels })])
    | .error e => (acc ++ [(path, doc)] ++ rest, some e)

/-- The relationship-building step of `process_folders` (processor.py
line 196): `_build_relationships` runs under `try`, an exception is
logged and swallowed, and `stats.relationships_built` is only assigned
on success.  Returns the registry and the stats counter. -/
def relationshipPhase (parse : String → List Wikilink)
    (documents : List (String × Document)) : List (String × Document) × Nat :=
  match buildRelationshipsAll parse documents [] with
  | (docs, none) => (docs, (docs.map (fun p => p.2.relationships.length)).sum)
  | (docs, some _) => (docs, 0)

/-! ## Helper lemmas about the stable descending sort -/

theorem mem_insertDescBy {α : Type} (key : α → Rat) (x : α) (l : List α) (a : α) :
    a ∈ insertDescBy key x l ↔ a = x ∨ a ∈ l := by
  induction l with
  | nil => simp [insertDescBy]
  | cons y ys ih =>
    rw [insertDescBy]
    split
    · simp only [List.mem_cons, ih]
      tauto
    · simp only [List.mem_cons]

theorem pairwise_insertDescBy {α : Type} (key : α → Rat) (x : α) (l : List α)
    (h : l.Pairwise (fun a b => key b ≤ key a)) :
    (insertDescBy key x l).Pairwise (fun a b => key b ≤ key a) := by
  induction l with
  | nil => simp [insertDescBy]
  | cons y ys ih =>
    rw [List.pairwise_cons] at h
    obtain ⟨hy, hys⟩ := h
    rw [insertDescBy]
    split
    · rename_i hgt
      rw [List.pairwise_cons]
      refine ⟨?_, ih hys⟩
      intro b hb
      rw [mem_insertDescBy] at hb
      rcases hb with rfl | hb
      · exact le_of_lt hgt
      · exact hy b hb
    · rename_i hle
      rw [List.pairwise_cons]
      refine ⟨?_, List.Pairwise.cons hy hys⟩
      intro b hb
      rcases List.mem_cons.mp hb with rfl | hb
      · exact not_lt.mp hle
      · exact le_trans (hy b hb) (not_lt.mp hle)

theorem pairwise_pySortDesc {α : Type} (key : α → Rat) (l : List α) :
    (pySortDesc key l).Pairwise (fun a b => key b ≤ key a) := by
  induction l with
  | nil => simp [pySortDesc]
  | cons x xs ih => exact pairwise_insertDescBy key x _ ih

theorem mem_pySortDesc {α : Type} (key : α → Rat) (l : List α) (a : α) :
    a ∈ pySortDesc key l ↔ a ∈ l := by
  induction l with
  | nil => simp [pySortDesc]
  | cons x xs ih =>
    show a ∈ insertDescBy key x (pySortDesc key xs) ↔ _
    rw [mem_insertDescBy, ih, List.mem_cons]

/-! ## C6 — retrieval ordering and filtering -/

theorem retrieveStep_min_score (min_score : Rat) (resp : ChromaResponse) :
    ∀ (l : List (Nat × String)) (acc : List RetrievalResult),
      (∀ r ∈ acc, min_score ≤ r.score) →
      ∀ r ∈ l.foldl (retrieveStep min_score resp) acc, min_score ≤ r.score := by
  intro l
  induction l with
  | nil => intro acc hacc; simpa using hacc
  | cons p rest ih =>
    intro acc hacc
    refine ih _ ?_
    rw [retrieveStep]
    split
    · exact hacc
    · rename_i hge
      intro r hr
      rcases List.mem_append.mp hr with hr | hr
      · exact hacc r hr
      · rcases List.mem_singleton.mp hr with rfl
        exact not_lt.mp hge

/-- C6: the list of retrieval results produced by
`QueryProcessor._retrieve_chunks` is sorted by score in descending
order, and no result scores below `min_score`. -/
theorem retrieve_chunks_sorted_and_above_min (min_score : Rat)
    (resp : ChromaResponse) :
    (retrieveChunks min_score resp).Pairwise (fun a b => b.score ≤ a.score)
    ∧ ∀ r ∈ retrieveChunks min_score resp, min_score ≤ r.score := by
  constructor
  · exact pairwise_pySortDesc _ _
  · intro r hr
    rw [retrieveChunks, mem_pySortDesc] at hr
    exact retrieveStep_min_score min_score resp _ [] (by simp) r hr

/-! ## C5 — conversation token budgeting -/

theorem packMessages_sum (mt : Nat) :
    ∀ (l : List LLMMessage) (used : Nat), used ≤ mt →
      used + ((packMessages mt l used).map estimateTokens).sum ≤ mt := by
  intro l
  induction l with
  | nil => intro used h; simpa [packMessages]
  | cons m rest ih =>
    intro used h
    rw [packMessages]
    split
    · rename_i hfit
      have := ih (used + estimateTokens m) hfit
      simp only [List.map_cons, List.sum_cons]
      omega
    · simpa [packMessages]

/-- C5 (amended): whenever the system messages alone fit the budget,
`Conversation.get_messages(max_tokens)` returns messages whose total
estimated tokens do not exceed `max_tokens`. -/
theorem get_messages_token_budget (messages : List LLMMessage) (mt : Nat)
    (h : (((messages.filter (fun m => m.role = "system")).map estimateTokens)).sum ≤ mt) :
    (((getMessages messages (some mt)).map estimateTokens)).sum ≤ mt := by
  rw [getMessages]
  simp only [List.map_append, List.sum_append, List.map_reverse, List.sum_reverse]
  exact packMessages_sum mt _ _ h

/-- Witness for C5: a system message of four characters (one estimated
token) and a user message of eight characters (two tokens) under a
budget of three. -/
theorem get_messages_token_budget_witness :
    ((([⟨"system", "abcd"⟩, ⟨"user", "abcdefgh"⟩] :
        List LLMMessage).filter (fun m => m.role = "system")).map estimateTokens).sum ≤ 3
    ∧ (((getMessages [⟨"system", "abcd"⟩, ⟨"user", "abcdefgh"⟩] (some 3)).map
        estimateTokens)).sum ≤ 3 :=
  ⟨by decide, get_messages_token_budget _ 3 (by decide)⟩

/-- Counterexample for C5 as stated: a single system message of eight
characters (two estimated tokens) is returned in full under a budget of
one token, so the returned total exceeds `max_tokens`. -/
theorem get_messages_budget_counterexample :
    (((getMessages [⟨"system", "12345678"⟩] (some 1)).map estimateTokens)).sum = 2
    ∧ ¬ (((getMessages [⟨"system", "12345678"⟩] (some 1)).map estimateTokens)).sum ≤ 1 := by
  constructor
  · decide
  · decide

/-! ## C7 — graph edge weight formula -/

theorem buildEdge_some_weight (sqrtQ : Rat → Rat) (kwMin : Nat)
    (emb : List (String × List Rat)) (d1 d2 : Document) (e : GraphEdge)
    (h : buildEdge sqrtQ kwMin emb d1 d2 = some e) :
    e.weight = e.wikilink_score * (2 / 10) + e.vector_score * (5 / 10) +
      e.keyword_score * (3 / 10) := by
  rw [buildEdge] at h
  simp only [GraphEdge.calculate_weight] at h
  split_ifs at h
  all_goals
    first
      | exact Option.noConfusion h
      | (rw [Option.some.injEq] at h; subst h; rfl)

theorem add_edge_edges (g : DocumentGraph) (e : GraphEdge) :
    (g.add_edge e).edges = g.edges ++ [e] := rfl

theorem mem_foldl_edgeStep (sqrtQ : Rat → Rat) (minW : Rat) (kwMin : Nat)
    (emb : List (String × List Rat)) :
    ∀ (pairs : List (Document × Document)) (g : DocumentGraph) (e : GraphEdge),
      e ∈ (pairs.foldl (buildGraphEdgeStep sqrtQ minW kwMin emb) g).edges →
      e ∈ g.edges ∨ ∃ p ∈ pairs, buildEdge sqrtQ kwMin emb p.1 p.2 = some e := by
  intro pairs
  induction pairs with
  | nil => intro g e he; exact Or.inl he
  | cons p rest ih =>
    intro g e he
    rcases ih _ e he with hg | ⟨q, hq, hbuild⟩
    · rw [buildGraphEdgeStep] at hg
      split at hg
      · rename_i e2 hsome
        split at hg
        · rw [add_edge_edges] at hg
          rcases List.mem_append.mp hg with hg | hg
          · exact Or.inl hg
          · rcases List.mem_singleton.mp hg with rfl
            exact Or.inr ⟨p, List.mem_cons_self p rest, hsome⟩
        · exact Or.inl hg
      · exact Or.inl hg
    · exact Or.inr ⟨q, List.mem_cons_of_mem p hq, hbuild⟩

theorem enumFrom_snd_mem {α : Type} :
    ∀ (l : List α) (n : Nat) (p : Nat × α), p ∈ l.enumFrom n → p.2 ∈ l := by
  intro l
  induction l with
  | nil => intro n p h; simp [List.enumFrom] at h
  | cons a rest ih =>
    intro n p h
    rw [List.enumFrom] at h
    rcases List.mem_cons.mp h with rfl | h
    · exact List.mem_cons_self a rest
    · exact List.mem_cons_of_mem a (ih (n + 1) p h)

theorem pruneEdges_edges_subset (N : Int) (g : DocumentGraph) :
    ∀ e ∈ (pruneEdges N g).edges, e ∈ g.edges := by
  intro e he
  rw [pruneEdges] at he
  split at he
  · exact he
  · simp only [List.mem_map, List.mem_filter] at he
    obtain ⟨ie, ⟨hmem, _⟩, rfl⟩ := he
    exact enumFrom_snd_mem g.edges 0 ie hmem

theorem foldl_preserve_edges {β : Type} (f : DocumentGraph → β → DocumentGraph)
    (hf : ∀ g b, (f g b).edges = g.edges) :
    ∀ (l : List β) (g : DocumentGraph), (l.foldl f g).edges = g.edges := by
  intro l
  induction l with
  | nil => intro g; rfl
  | cons b rest ih => intro g; rw [List.foldl_cons, ih, hf]

theorem mem_buildGraph_edges (sqrtQ : Rat → Rat) (minW : Rat) (N : Int)
    (kwMin : Nat) (docs : List Document) (emb : List (String × List Rat))
    (e : GraphEdge) (he : e ∈ (buildGraph sqrtQ minW N kwMin docs emb).edges) :
    ∃ d1 d2, buildEdge sqrtQ kwMin emb d1 d2 = some e := by
  rw [buildGraph] at he
  have h2 := pruneEdges_edges_subset N _ e he
  rw [buildGraphRaw] at h2
  rcases mem_foldl_edgeStep sqrtQ minW kwMin emb _ _ e h2 with hg | ⟨p, _, hbuild⟩
  · exfalso
    rw [foldl_preserve_edges buildGraphNodeStep (fun _ _ => rfl) docs {}] at hg
    exact (List.not_mem_nil e) hg
  · exact ⟨p.1, p.2, hbuild⟩

/-- C7: every edge built by `GraphBuilder` has combined weight exactly
`0.2·wikilink + 0.5·vector + 0.3·keyword` (hence within `1e-9` of it),
and the weight lies in `[0, 1]` whenever the three component scores lie
in `[0, 1]`. -/
theorem graph_edge_weight_formula (sqrtQ : Rat → Rat) (minW : Rat) (N : Int)
    (kwMin : Nat) (docs : List Document) (emb : List (String × List Rat))
    (e : GraphEdge) (he : e ∈ (buildGraph sqrtQ minW N kwMin docs emb).edges) :
    |e.weight - (e.wikilink_score * (2 / 10) + e.vector_score * (5 / 10) +
        e.keyword_score * (3 / 10))| < 1 / 1000000000
    ∧ (0 ≤ e.wikilink_score ∧ e.wikilink_score ≤ 1 ∧
        0 ≤ e.vector_score ∧ e.vector_score ≤ 1 ∧
        0 ≤ e.keyword_score ∧ e.keyword_score ≤ 1 →
        0 ≤ e.weight ∧ e.weight ≤ 1) := by
  obtain ⟨d1, d2, hbuild⟩ := mem_buildGraph_edges sqrtQ minW N kwMin docs emb e he
  have hw := buildEdge_some_weight sqrtQ kwMin emb d1 d2 e hbuild
  constructor
  · rw [hw]
    simp only [sub_self, abs_zero]
    norm_num
  · rintro ⟨h1, h2, h3, h4, h5, h6⟩
    rw [hw]
    constructor
    · positivity
    · nlinarith

/-- Concrete documents for the C7 witness: `wit7A` wiki-links to
`wit7B`, titles share no keyword of length three or more. -/
def wit7A : Document :=
  { doc_id := "a", file_path := "/kb/a.md", relative_path := "a.md",
    source_folder := "/kb", raw_content := "", parsed_content := "",
    metadata := { title := some "ax" },
    relationships := [{ source_doc_id := "a", target_doc_id := "b",
                        relationship_type := "wikilink" }],
    status := .active }

def wit7B : Document :=
  { doc_id := "b", file_path := "/kb/b.md", relative_path := "b.md",
    source_folder := "/kb", raw_content := "", parsed_content := "",
    metadata := { title := some "bx" }, status := .active }

/-- The edge the builder produces between `wit7A` and `wit7B`. -/
def wit7Edge : GraphEdge :=
  { source_id := "a", target_id := "b", weight := 1 * (2 / 10) + 0 * (5 / 10) + 0 * (3 / 10),
    wikilink_score := 1, vector_score := 0, keyword_score := 0,
    relationship_type := "wikilink" }

unseal Rat.add Rat.mul Rat.inv Rat.sub in
/-- Witness for C7 at a concrete two-document graph. -/
theorem graph_edge_weight_formula_witness :
    wit7Edge ∈ (buildGraph (fun _ => 0) (1 / 10) 20 3 [wit7A, wit7B] []).edges
    ∧ (0 ≤ wit7Edge.weight ∧ wit7Edge.weight ≤ 1) := by
  have hm : wit7Edge ∈ (buildGraph (fun _ => 0) (1 / 10) 20 3 [wit7A, wit7B] []).edges := by
    decide
  exact ⟨hm, (graph_edge_weight_formula (fun _ => 0) (1 / 10) 20 3 [wit7A, wit7B] []
    wit7Edge hm).2 (by decide)⟩

/-! ## Round-trip lemmas for the snapshot exporter/importer -/

theorem ofValue_value (st : DocumentStatus) :
    DocumentStatus.ofValue st.value = some st := by
  cases st <;> rfl

theorem reconstructChunk_export (c : DocumentChunk) :
    reconstructChunk (exportChunkEntry c) = .ok { c with embedding := none } := rfl

theorem reconstructRel_export (r : Relationship) :
    reconstructRel (exportRelEntry r) = .ok r := rfl

theorem mapM_reconstructChunk (l : List DocumentChunk) :
    (l.map exportChunkEntry).mapM reconstructChunk =
      .ok (l.map (fun c => { c with embedding := none })) := by
  induction l with
  | nil => rfl
  | cons c t ih =>
    rw [List.map_cons, List.mapM_cons, reconstructChunk_export, ih]
    rfl

theorem mapM_reconstructRel (l : List Relationship) :
    (l.map exportRelEntry).mapM reconstructRel = .ok l := by
  induction l with
  | nil => rfl
  | cons r t ih =>
    rw [List.map_cons, List.mapM_cons, reconstructRel_export, ih]
    rfl

theorem exceptBind_ok {ε α β : Type} (a : α) (f : α → Except ε β) :
    (Except.ok a >>= f) = f a := rfl

/-- Re-importing an exported document always succeeds and yields the
original document with chunk embeddings dropped, re-normalized by
`__post_init__` against the current filesystem. -/
theorem reconstructDocument_export (fs : String → Bool) (d : Document) :
    reconstructDocument fs (exportDocument d) =
      .ok (documentPostInit fs
        { d with chunks := d.chunks.map (fun c => { c with embedding := none }) }) := by
  obtain ⟨did, fp, rp, sf, rc, pc, md, chs, rels, st, fsz, fh⟩ := d
  cases st <;>
    (simp only [reconstructDocument, exportDocument, require, exceptBind_ok,
      mapM_reconstructChunk, mapM_reconstructRel, ofValue_value]
     rfl)

/-! ## C10 — missing files force frozen status -/

/-- C10: `Document.__post_init__` forces status `frozen` whenever the
file path does not exist, regardless of the status passed in; hence a
document exported as `active` and re-imported on a machine where its
source file is absent comes back `frozen`. -/
theorem post_init_forces_frozen :
    (∀ (fs : String → Bool) (d : Document), fs d.file_path = false →
      (documentPostInit fs d).status = .frozen)
    ∧ ∀ (fs2 : String → Bool) (d : Document), d.status = .active →
        fs2 d.file_path = false →
        ∃ d2, reconstructDocument fs2 (exportDocument d) = .ok d2
          ∧ d2.status = .frozen := by
  have hbase : ∀ (fs : String → Bool) (d : Document), fs d.file_path = false →
      (documentPostInit fs d).status = .frozen := by
    intro fs d h
    rw [documentPostInit]
    simp only [h, Bool.false_eq_true, if_false]
    split <;> rfl
  refine ⟨hbase, ?_⟩
  intro fs2 d _ hfs
  exact ⟨_, reconstructDocument_export fs2 d, hbase fs2 _ hfs⟩

/-- A concrete document (active, existing title) whose file is absent
from the witness filesystem. -/
def wit10Doc : Document :=
  { doc_id := "/gone/x.md", file_path := "/gone/x.md", relative_path := "x.md",
    source_folder := "/gone", raw_content := "r", parsed_content := "p",
    metadata := { title := some "X" }, status := .active }

/-- Witness for C10: `wit10Doc` is active, its file does not exist, and
both direct construction and export/import leave it frozen. -/
theorem post_init_forces_frozen_witness :
    ((fun (_ : String) => false) wit10Doc.file_path = false)
    ∧ (documentPostInit (fun _ => false) wit10Doc).status = .frozen
    ∧ wit10Doc.status = .active
    ∧ ∃ d2, reconstructDocument (fun _ => false) (exportDocument wit10Doc) = .ok d2
        ∧ d2.status = .frozen :=
  ⟨rfl, post_init_forces_frozen.1 (fun _ => false) wit10Doc rfl, rfl,
    post_init_forces_frozen.2 (fun _ => false) wit10Doc rfl rfl⟩

/-! ## C2 — snapshot round-trip -/

/-- The fields the round-trip claim compares: `doc_id`, metadata
(title, tags, aliases, word count, headings, custom fields), chunk
contents, relationships, and status. -/
def docObs (d : Document) :=
  (d.doc_id, d.metadata.title, d.metadata.tags, d.metadata.aliases,
   d.metadata.word_count, d.metadata.headings, d.metadata.custom_fields,
   d.chunks.map (fun c => c.content), d.relationships, d.status)

theorem importDocuments_export_fold (fs : String → Bool) :
    ∀ (D : List Document) (acc : List Document × List String),
      (D.map exportDocument).foldl (importStep fs) acc =
        (acc.1 ++ D.map (fun d => documentPostInit fs
          { d with chunks := d.chunks.map (fun c => { c with embedding := none }) }),
         acc.2) := by
  intro D
  induction D with
  | nil => intro acc; simp
  | cons d rest ih =>
    intro acc
    rw [List.map_cons, List.foldl_cons, importStep, reconstructDocument_export, ih]
    simp

/-- C2 (amended): exporting and re-importing preserves `doc_id`,
metadata, chunk contents, relationships, and status — provided each
document's file still exists on the importing filesystem and its title
is set (otherwise `__post_init__` rewrites status or title). -/
theorem export_import_roundtrip (fs : String → Bool) (D : List Document)
    (h1 : ∀ d ∈ D, fs d.file_path = true)
    (h2 : ∀ d ∈ D, optStrTruthy d.metadata.title = true) :
    (importDocuments fs (.valid (exportDocuments D))).1.map docObs = D.map docObs
    ∧ (importDocuments fs (.valid (exportDocuments D))).2 = [] := by
  rw [importDocuments, exportDocuments, importDocuments_export_fold fs D ([], [])]
  simp only [List.nil_append, List.map_map]
  constructor
  · apply List.map_congr_left
    intro d hd
    have hfs := h1 d hd
    have ht := h2 d hd
    show docObs (documentPostInit fs _) = docObs d
    rw [documentPostInit]
    simp only [hfs, if_true, ht]
    simp [docObs, List.map_map]
  · trivial

/-- Witness for C2: one chunked, related, active document on a
filesystem where its file exists round-trips to the same observation. -/
def wit2Doc : Document :=
  { doc_id := "/kb/n.md", file_path := "/kb/n.md", relative_path := "n.md",
    source_folder := "/kb", raw_content := "note", parsed_content := "note",
    metadata := { title := some "note", tags := ["t"], word_count := 1 },
    chunks := [{ chunk_id := "n_0", document_id := "/kb/n.md", content := "note",
                 start_line := 0, end_line := 10, embedding := some [1] }],
    relationships := [{ source_doc_id := "/kb/n.md", target_doc_id := "/kb/m.md",
                        relationship_type := "wikilink", strength := 1 }],
    status := .active }

theorem export_import_roundtrip_witness :
    (∀ d ∈ [wit2Doc], (fun p => p = "/kb/n.md") d.file_path = true)
    ∧ (importDocuments (fun p => p = "/kb/n.md")
        (.valid (exportDocuments [wit2Doc]))).1.map docObs = [wit2Doc].map docObs :=
  ⟨by decide,
   (export_import_roundtrip (fun p => p = "/kb/n.md") [wit2Doc]
     (by decide) (by decide)).1⟩

/-- Counterexample for C2 as stated: a document with status `active`
whose file does not exist on the importing filesystem comes back
`frozen`, so the round-trip does not preserve status for every document
list. -/
theorem export_import_roundtrip_counterexample :
    (importDocuments (fun _ => false)
        (.valid (exportDocuments [wit10Doc]))).1.map Document.status
      = [DocumentStatus.frozen]
    ∧ wit10Doc.status = DocumentStatus.active := by
  constructor
  · decide
  · rfl

/-! ## C9 — snapshot import failure semantics -/

/-- Whether one serialized document reconstructs successfully. -/
def reconstructOk (fs : String → Bool) (e : DocEntry) : Bool :=
  match reconstructDocument fs e with
  | .ok _ => true
  | .error _ => false

theorem importStep_counts (fs : String → Bool) :
    ∀ (entries : List DocEntry) (acc : List Document × List String),
      (entries.foldl (importStep fs) acc).1.length
          = acc.1.length + entries.countP (reconstructOk fs)
      ∧ (entries.foldl (importStep fs) acc).2.length
          = acc.2.length + entries.countP (fun e => !reconstructOk fs e) := by
  intro entries
  induction entries with
  | nil => intro acc; simp
  | cons e rest ih =>
    intro acc
    rw [List.foldl_cons, importStep]
    rcases hre : reconstructDocument fs e with err | doc
    · obtain ⟨iha, ihb⟩ := ih
        (acc.1, acc.2 ++ ["Failed to import document " ++ e.doc_id.getD "unknown"
          ++ ": " ++ err])
      constructor
      · rw [iha]
        simp [List.countP_cons, reconstructOk, hre]
      · rw [ihb]
        simp only [List.countP_cons, reconstructOk, hre, List.length_append,
          List.length_singleton]
        simp
        omega
    · obtain ⟨iha, ihb⟩ := ih (acc.1 ++ [doc], acc.2)
      constructor
      · rw [iha]
        simp only [List.countP_cons, reconstructOk, hre, List.length_append,
          List.length_singleton]
        simp
        omega
      · rw [ihb]
        simp [List.countP_cons, reconstructOk, hre]

/-- C9: `import_all` fails with a non-empty error list when the
manifest is absent, fails whenever zero documents were reconstructed,
and per-document reconstruction errors skip only that document while
accumulating one error string each. -/
theorem import_all_failure_semantics (fs : String → Bool) (src : ImportSource) :
    (src.manifest = .missing →
      (importAll fs src).success = false ∧ (importAll fs src).errors ≠ [])
    ∧ ((importAll fs src).imported_documents = 0 →
      (importAll fs src).success = false)
    ∧ (∀ entries, src.manifest = .valid () → src.documents = .valid entries →
      (importAll fs src).imported_documents = entries.countP (reconstructOk fs)
      ∧ (importAll fs src).errors.length
          = entries.countP (fun e => !reconstructOk fs e)) := by
  refine ⟨?_, ?_, ?_⟩
  · intro hm
    rw [importAll, hm]
    simp [loadManifest]
  · intro h0
    rcases hm : src.manifest with _ | msg | u
    · rw [importAll, hm]
      simp [loadManifest]
    · rw [importAll, hm]
      simp [loadManifest]
    · rw [importAll, hm] at h0 ⊢
      rcases hip : importDocuments fs src.documents with ⟨docs, errs⟩
      simp only [loadManifest, hip] at h0 ⊢
      simp_all
  · intro entries hm hd
    rw [importAll, hm, hd]
    obtain ⟨hl, he⟩ := importStep_counts fs entries ([], [])
    rcases hq : entries.foldl (importStep fs) ([], []) with ⟨docs, errs⟩
    rw [hq] at hl he
    simp only [loadManifest, importDocuments, hq]
    simp only [List.length_nil, Nat.zero_add] at hl he
    exact ⟨hl, he⟩

/-- An import source with no manifest file. -/
def src9NoManifest : ImportSource :=
  { manifest := .missing, documents := .valid [] }

/-- An import source with a manifest but no documents file. -/
def src9NoDocs : ImportSource :=
  { manifest := .valid (), documents := .missing }

/-- An import source with one well-formed document entry and one entry
with every key missing. -/
def src9Mixed : ImportSource :=
  { manifest := .valid (), documents := .valid [exportDocument wit10Doc, {}] }

/-- Witness for C9 at three concrete import sources: missing manifest,
zero reconstructed documents, and a mixed good/bad document list. -/
theorem import_all_failure_semantics_witness :
    ((importAll (fun _ => true) src9NoManifest).success = false
      ∧ (importAll (fun _ => true) src9NoManifest).errors ≠ [])
    ∧ (importAll (fun _ => true) src9NoDocs).success = false
    ∧ ((importAll (fun _ => true) src9Mixed).imported_documents
        = [exportDocument wit10Doc, {}].countP (reconstructOk (fun _ => true))
      ∧ (importAll (fun _ => true) src9Mixed).errors.length
        = [exportDocument wit10Doc, ({} : DocEntry)].countP
            (fun e => !reconstructOk (fun _ => true) e)) :=
  ⟨(import_all_failure_semantics (fun _ => true) src9NoManifest).1 rfl,
   (import_all_failure_semantics (fun _ => true) src9NoDocs).2.1 (by decide),
   (import_all_failure_semantics (fun _ => true) src9Mixed).2.2
     [exportDocument wit10Doc, {}] rfl rfl⟩

/-! ## C8 — verifier idempotence -/

theorem verifyUpdate_file_path (folders missing existing : List String)
    (doc : Document) :
    (verifyUpdate folders missing existing doc).file_path = doc.file_path := by
  rw [verifyUpdate]
  rcases findDocumentSource doc folders with _ | src
  · rfl
  · dsimp only
    split
    · rfl
    · split <;> rfl

theorem findDocumentSource_update (folders missing existing : List String)
    (doc : Document) :
    findDocumentSource (verifyUpdate folders missing existing doc) folders
      = findDocumentSource doc folders := by
  simp only [findDocumentSource, verifyUpdate_file_path]

theorem verifyUpdate_idem (folders missing existing : List String)
    (doc : Document) :
    verifyUpdate folders missing existing
        (verifyUpdate folders missing existing doc)
      = verifyUpdate folders missing existing doc := by
  obtain ⟨did, fp, rp, sf, rc, pc, md, chs, rels, st, fsz, fh⟩ := doc
  rcases hf : findDocumentSource ⟨did, fp, rp, sf, rc, pc, md, chs, rels, st, fsz, fh⟩ folders
    with _ | src
  · have h1 : verifyUpdate folders missing existing
        ⟨did, fp, rp, sf, rc, pc, md, chs, rels, st, fsz, fh⟩
        = ⟨did, fp, rp, sf, rc, pc, md, chs, rels, st, fsz, fh⟩ := by
      rw [verifyUpdate, hf]
    rw [h1, h1]
  · by_cases hm : src ∈ missing
    · have h1 : verifyUpdate folders missing existing
          ⟨did, fp, rp, sf, rc, pc, md, chs, rels, st, fsz, fh⟩
          = ⟨did, fp, rp, sf, rc, pc, md, chs, rels, .frozen, fsz, fh⟩ := by
        rw [verifyUpdate, hf]
        simp [hm]
      have h2 : findDocumentSource
          (⟨did, fp, rp, sf, rc, pc, md, chs, rels, .frozen, fsz, fh⟩ : Document) folders
          = some src := by
        rw [← h1, findDocumentSource_update, hf]
      rw [h1, verifyUpdate, h2]
      simp [hm]
    · by_cases hfr : st = DocumentStatus.frozen ∧ src ∈ existing
      · have h1 : verifyUpdate folders missing existing
            ⟨did, fp, rp, sf, rc, pc, md, chs, rels, st, fsz, fh⟩
            = ⟨did, fp, rp, sf, rc, pc, md, chs, rels, .active, fsz, fh⟩ := by
          rw [verifyUpdate, hf]
          simp [hm, hfr.1, hfr.2]
        have h2 : findDocumentSource
            (⟨did, fp, rp, sf, rc, pc, md, chs, rels, .active, fsz, fh⟩ : Document) folders
            = some src := by
          rw [← h1, findDocumentSource_update, hf]
        rw [h1, verifyUpdate, h2]
        simp [hm]
      · have h1 : verifyUpdate folders missing existing
            ⟨did, fp, rp, sf, rc, pc, md, chs, rels, st, fsz, fh⟩
            = ⟨did, fp, rp, sf, rc, pc, md, chs, rels, st, fsz, fh⟩ := by
          rw [verifyUpdate, hf]
          simp only [if_neg hm, if_neg hfr]
        rw [h1, h1]

theorem verifyFold_docs (folders missing existing : List String) :
    ∀ (ds : List Document) (acc : List (String × Nat) × Nat × List Document),
      (ds.foldl (verifyStep folders missing existing) acc).2.2
        = acc.2.2 ++ ds.map (verifyUpdate folders missing existing) := by
  intro ds
  induction ds with
  | nil => intro acc; simp
  | cons d rest ih =>
    intro acc
    rw [List.foldl_cons, ih]
    have hstep : (verifyStep folders missing existing acc d).2.2
        = acc.2.2 ++ [verifyUpdate folders missing existing d] := by
      rw [verifyStep, verifyUpdate]
      rcases findDocumentSource d folders with _ | src
      · rfl
      · dsimp only
        split
        · rfl
        · split <;> rfl
    rw [hstep]
    simp

theorem verifyStep_counts_fc (folders missing existing : List String)
    (acc acc2 : List (String × Nat) × Nat × List Document) (doc doc2 : Document)
    (hsrc : findDocumentSource doc folders = findDocumentSource doc2 folders)
    (hc : acc.1 = acc2.1) (hf : acc.2.1 = acc2.2.1) :
    (verifyStep folders missing existing acc doc).1
        = (verifyStep folders missing existing acc2 doc2).1
    ∧ (verifyStep folders missing existing acc doc).2.1
        = (verifyStep folders missing existing acc2 doc2).2.1 := by
  obtain ⟨ca, fa, da⟩ := acc
  obtain ⟨cb, fb, db⟩ := acc2
  simp only at hc hf
  subst hc
  subst hf
  rw [verifyStep, verifyStep, ← hsrc]
  rcases findDocumentSource doc folders with _ | src
  · constructor <;> trivial
  · dsimp only
    by_cases hmm : src ∈ missing
    · simp only [if_pos hmm]
      constructor <;> trivial
    · simp only [if_neg hmm]
      constructor
      · split <;> split <;> rfl
      · split <;> split <;> rfl

theorem verifyFold_counts_fc (folders missing existing : List String) :
    ∀ (ds ds2 : List Document),
      ds2.map (fun d => findDocumentSource d folders)
        = ds.map (fun d => findDocumentSource d folders) →
      ∀ (acc acc2 : List (String × Nat) × Nat × List Document),
        acc.1 = acc2.1 → acc.2.1 = acc2.2.1 →
        (ds.foldl (verifyStep folders missing existing) acc).1
            = (ds2.foldl (verifyStep folders missing existing) acc2).1
        ∧ (ds.foldl (verifyStep folders missing existing) acc).2.1
            = (ds2.foldl (verifyStep folders missing existing) acc2).2.1 := by
  intro ds
  induction ds with
  | nil =>
    intro ds2 hmap acc acc2 hc hf
    rcases ds2 with _ | ⟨d2, rest2⟩
    · exact ⟨hc, hf⟩
    · simp at hmap
  | cons d rest ih =>
    intro ds2 hmap acc acc2 hc hf
    rcases ds2 with _ | ⟨d2, rest2⟩
    · simp at hmap
    · simp only [List.map_cons, List.cons.injEq] at hmap
      rw [List.foldl_cons, List.foldl_cons]
      obtain ⟨hs1, hs2⟩ := verifyStep_counts_fc folders missing existing acc2 acc d2 d
        hmap.1 hc.symm hf.symm
      exact ih rest2 hmap.2 _ _ hs1.symm hs2.symm

/-- C8: calling `SourceVerifier.verify_sources` twice in succession
with the same documents and folders yields the same report and the same
document statuses as the first call (full idempotence of the
report/documents pair). -/
theorem verify_sources_idempotent (fs : String → Bool) (docs : List Document)
    (folders : List String) :
    verifySources fs (verifySources fs docs folders).2 folders
      = verifySources fs docs folders := by
  rw [verifySources, verifySources]
  set e := (folders.filter fs).dedup with he
  set m := (folders.filter (fun f => !fs f)).dedup with hmdef
  have hdocs1 := verifyFold_docs folders m e docs ([], 0, [])
  rcases h1 : docs.foldl (verifyStep folders m e) ([], 0, []) with ⟨c1, f1, d1⟩
  rw [h1] at hdocs1
  simp only [List.nil_append] at hdocs1
  have hmap : (d1.map (fun d => findDocumentSource d folders))
      = docs.map (fun d => findDocumentSource d folders) := by
    rw [hdocs1, List.map_map]
    apply List.map_congr_left
    intro d _
    exact findDocumentSource_update folders m e d
  have hcf := verifyFold_counts_fc folders m e docs d1 hmap
    ([], 0, []) ([], 0, []) rfl rfl
  have hd2 := verifyFold_docs folders m e d1 ([], 0, [])
  rcases h2 : d1.foldl (verifyStep folders m e) ([], 0, []) with ⟨c2, f2, d2⟩
  rw [h2] at hd2
  dsimp only at hd2
  obtain ⟨hceq, hfeq⟩ := hcf
  rw [h1, h2] at hceq hfeq
  simp only at hceq hfeq
  have hd2eq : d2 = d1 := by
    rw [hd2, hdocs1, List.nil_append, List.map_map]
    apply List.map_congr_left
    intro d _
    exact verifyUpdate_idem folders m e d
  simp only [hceq, hfeq, hd2eq]

/-! ## C3 — pruning bounds -/

theorem sum_map_le_length_mul {α : Type} (g : α → Nat) (N : Nat) :
    ∀ (l : List α), (∀ a ∈ l, g a ≤ N) → (l.map g).sum ≤ l.length * N := by
  intro l
  induction l with
  | nil => intro _; simp
  | cons a rest ih =>
    intro h
    simp only [List.map_cons, List.sum_cons, List.length_cons]
    have h1 := h a (List.mem_cons_self a rest)
    have h2 := ih (fun b hb => h b (List.mem_cons_of_mem a hb))
    calc g a + (rest.map g).sum ≤ N + rest.length * N := Nat.add_le_add h1 h2
    _ = (rest.length + 1) * N := by ring

theorem pruneVotes_length_le (N : Nat) (edges : List (Nat × GraphEdge)) :
    (pruneVotes N edges).length ≤ (groupNodeEdges edges).length * N := by
  rw [pruneVotes]
  simp only [List.length_map, List.length_flatten, List.map_map]
  apply sum_map_le_length_mul
  intro p _
  simp only [Function.comp_apply, List.length_take]
  exact min_le_left _ _

theorem filter_votes_length_le (edges : List GraphEdge) (votes : List Nat) :
    ((edges.enum.filter (fun ie => ie.1 ∈ votes)).map (fun ie => ie.2)).length
      ≤ votes.length := by
  rw [List.length_map]
  have hsub : List.Sublist
      ((edges.enum.filter (fun ie => ie.1 ∈ votes)).map Prod.fst)
      (edges.enum.map Prod.fst) :=
    (List.filter_sublist _).map Prod.fst
  rw [List.enum_map_fst] at hsub
  have hnodup : ((edges.enum.filter (fun ie => ie.1 ∈ votes)).map Prod.fst).Nodup :=
    (List.nodup_range _).sublist hsub
  have hsubset : ((edges.enum.filter (fun ie => ie.1 ∈ votes)).map Prod.fst).toFinset
      ⊆ votes.toFinset := by
    intro x hx
    rw [List.mem_toFinset] at hx ⊢
    obtain ⟨ie, hie, rfl⟩ := List.mem_map.mp hx
    have hmf := List.mem_filter.mp hie
    simpa using hmf.2
  calc (edges.enum.filter (fun ie => ie.1 ∈ votes)).length
      = ((edges.enum.filter (fun ie => ie.1 ∈ votes)).map Prod.fst).length := by
        rw [List.length_map]
    _ = ((edges.enum.filter (fun ie => ie.1 ∈ votes)).map Prod.fst).toFinset.card :=
        (List.toFinset_card_of_nodup hnodup).symm
    _ ≤ votes.toFinset.card := Finset.card_le_card hsubset
    _ ≤ votes.length := List.toFinset_card_le votes

theorem pruneEdges_length_le (N : Int) (g : DocumentGraph) :
    (pruneEdges N g).edges.length ≤ g.edges.length := by
  rw [pruneEdges]
  split
  · exact le_refl _
  · simp only
    rw [List.length_map]
    calc (g.edges.enum.filter
          (fun ie => ie.1 ∈ pruneVotes N.toNat g.edges.enum)).length
        ≤ g.edges.enum.length := List.length_filter_le _ _
      _ = g.edges.length := List.enum_length

theorem foldl_edgeStep_length (sqrtQ : Rat → Rat) (minW : Rat) (kwMin : Nat)
    (emb : List (String × List Rat)) :
    ∀ (pairs : List (Document × Document)) (g : DocumentGraph),
      (pairs.foldl (buildGraphEdgeStep sqrtQ minW kwMin emb) g).edges.length
        ≤ g.edges.length + pairs.length := by
  intro pairs
  induction pairs with
  | nil => intro g; simp
  | cons p rest ih =>
    intro g
    rw [List.foldl_cons]
    refine le_trans (ih _) ?_
    have hstep : (buildGraphEdgeStep sqrtQ minW kwMin emb g p).edges.length
        ≤ g.edges.length + 1 := by
      rw [buildGraphEdgeStep]
      split
      · split
        · rw [add_edge_edges]
          simp
        · simp
      · simp
    simp only [List.length_cons]
    omega

/-- C3 (amended): after pruning, the surviving edges are exactly those
that received at least one endpoint vote (each node voting for its top
`max_edges_per_node` incident edges), so the surviving edge count is
bounded by `max_edges_per_node` times the number of voting nodes; in
particular, with three documents at most three edges survive.  The
claimed per-node bound of `2·max_edges_per_node` incident edges does
not hold (see the counterexample). -/
theorem prune_edges_vote_bound (sqrtQ : Rat → Rat) (minW : Rat) (N : Int)
    (kwMin : Nat) (docs : List Document) (emb : List (String × List Rat))
    (hN : 0 < N) :
    (buildGraph sqrtQ minW N kwMin docs emb).edges
      = ((buildGraphRaw sqrtQ minW kwMin docs emb).edges.enum.filter
          (fun ie => ie.1 ∈ pruneVotes N.toNat
            (buildGraphRaw sqrtQ minW kwMin docs emb).edges.enum)).map (fun ie => ie.2)
    ∧ (buildGraph sqrtQ minW N kwMin docs emb).edges.length
        ≤ (groupNodeEdges (buildGraphRaw sqrtQ minW kwMin docs emb).edges.enum).length
            * N.toNat
    ∧ (docs.length = 3 →
        (buildGraph sqrtQ minW N kwMin docs emb).edges.length ≤ 3) := by
  have hedges : (buildGraph sqrtQ minW N kwMin docs emb).edges
      = ((buildGraphRaw sqrtQ minW kwMin docs emb).edges.enum.filter
          (fun ie => ie.1 ∈ pruneVotes N.toNat
            (buildGraphRaw sqrtQ minW kwMin docs emb).edges.enum)).map (fun ie => ie.2) := by
    rw [buildGraph, pruneEdges, if_neg (not_le.mpr hN)]
  refine ⟨hedges, ?_, ?_⟩
  · rw [hedges]
    exact le_trans (filter_votes_length_le _ _) (pruneVotes_length_le _ _)
  · intro h3
    obtain ⟨a, b, c, rfl⟩ := List.length_eq_three.mp h3
    refine le_trans (pruneEdges_length_le N _) ?_
    rw [buildGraphRaw]
    refine le_trans (foldl_edgeStep_length sqrtQ minW kwMin emb _ _) ?_
    rw [foldl_preserve_edges buildGraphNodeStep (fun _ _ => rfl) [a, b, c] {}]
    simp [docPairs]

/-- Three keyword-free documents for the C3 witness. -/
def wit3A : Document :=
  { doc_id := "p", file_path := "/kb/p.md", relative_path := "p.md",
    source_folder := "/kb", raw_content := "", parsed_content := "",
    metadata := { title := some "pp" }, status := .active }

def wit3B : Document := { wit3A with doc_id := "q", file_path := "/kb/q.md" }

def wit3C : Document := { wit3A with doc_id := "r", file_path := "/kb/r.md" }

/-- Witness for C3: the vote characterization and edge bound at the
star input below, and the three-document bound at a three-element list. -/
theorem prune_edges_vote_bound_witness :
    (0 < (1 : Int)
    ∧ (buildGraph (fun _ => 0) (1 / 10) 1 3 [wit3A, wit3B, wit3C] []).edges.length
        ≤ (groupNodeEdges (buildGraphRaw (fun _ => 0) (1 / 10) 3
              [wit3A, wit3B, wit3C] []).edges.enum).length * (1 : Int).toNat)
    ∧ ([wit3A, wit3B, wit3C].length = 3
    ∧ (buildGraph (fun _ => 0) (1 / 10) 1 3 [wit3A, wit3B, wit3C] []).edges.length ≤ 3) :=
  ⟨⟨by decide,
    (prune_edges_vote_bound (fun _ => 0) (1 / 10) 1 3 [wit3A, wit3B, wit3C] []
      (by decide)).2.1⟩,
   ⟨rfl,
    (prune_edges_vote_bound (fun _ => 0) (1 / 10) 1 3 [wit3A, wit3B, wit3C] []
      (by decide)).2.2 rfl⟩⟩

/-- The star for the C3 counterexample: `hub` wiki-links to three
leaves; titles share no keywords of length three or more. -/
def hubDoc : Document :=
  { doc_id := "hub", file_path := "/kb/hub.md", relative_path := "hub.md",
    source_folder := "/kb", raw_content := "", parsed_content := "",
    metadata := { title := some "hh" },
    relationships :=
      [ { source_doc_id := "hub", target_doc_id := "alpha",
          relationship_type := "wikilink" },
        { source_doc_id := "hub", target_doc_id := "bravo",
          relationship_type := "wikilink" },
        { source_doc_id := "hub", target_doc_id := "candy",
          relationship_type := "wikilink" } ],
    status := .active }

def leafDoc (i t : String) : Document :=
  { doc_id := i, file_path := "/kb/" ++ i ++ ".md", relative_path := i ++ ".md",
    source_folder := "/kb", raw_content := "", parsed_content := "",
    metadata := { title := some t }, status := .active }

def starDocs : List Document :=
  [hubDoc, leafDoc "alpha" "aa", leafDoc "bravo" "bb", leafDoc "candy" "cc"]

unseal Rat.add Rat.mul Rat.inv Rat.sub in
/-- Counterexample for C3 as stated: with `max_edges_per_node = 1` on
the four-document star, every leaf votes for its own hub edge, so all
three edges survive and the hub keeps degree 3, exceeding
`2·max_edges_per_node = 2`. -/
theorem prune_per_node_bound_counterexample :
    (dictGet? (buildGraph (fun _ => 0) (1 / 10) 1 3 starDocs []).nodes "hub").map
        GraphNode.degree = some 3
    ∧ ¬ (3 ≤ 2 * 1) := by
  constructor
  · decide
  · decide

/-! ## C4 — chunk token bounds -/

theorem pickOverlap_le (chunk_overlap : Nat) :
    ∀ (l : List String) (acc : Nat), acc ≤ chunk_overlap →
      (pickOverlap chunk_overlap l acc).2 ≤ chunk_overlap := by
  intro l
  induction l with
  | nil => intro acc h; exact h
  | cons s rest ih =>
    intro acc h
    rw [pickOverlap]
    dsimp only
    split
    · rename_i hfit
      exact ih (acc + countTokens s) hfit
    · exact h

/-- The loop invariant of `chunk_text`: an empty current chunk carries
zero tokens, the current token count stays within
`chunk_size + chunk_overlap`, and every emitted chunk does too. -/
def chunkInv (chunk_size chunk_overlap : Nat) (st : ChunkState) : Prop :=
  (st.current_chunk = [] → st.current_tokens = 0)
  ∧ st.current_tokens ≤ chunk_size + chunk_overlap
  ∧ ∀ c ∈ st.chunks, c.token_count ≤ chunk_size + chunk_overlap

theorem chunkStep_inv (chunk_size chunk_overlap : Nat)
    (metadata : List (String × String)) (st : ChunkState) (sentence : String)
    (hinv : chunkInv chunk_size chunk_overlap st)
    (hs : countTokens sentence ≤ chunk_size) :
    chunkInv chunk_size chunk_overlap
      (chunkStep chunk_size chunk_overlap metadata st sentence) := by
  obtain ⟨hempty, htok, hchunks⟩ := hinv
  rw [chunkStep]
  split
  · rename_i hcond
    have hover := pickOverlap_le chunk_overlap st.current_chunk.reverse 0
      (Nat.zero_le _)
    refine ⟨?_, ?_, ?_⟩
    · intro h
      simp at h
    · dsimp only
      omega
    · intro c hc
      dsimp only at hc
      rcases List.mem_append.mp hc with hc | hc
      · exact hchunks c hc
      · rcases List.mem_singleton.mp hc with rfl
        dsimp only
        omega
  · rename_i hcond
    rcases Decidable.em (st.current_chunk = []) with hnil | hnil
    · have h0 := hempty hnil
      refine ⟨?_, ?_, hchunks⟩
      · intro h
        simp at h
      · dsimp only
        omega
    · have hle : st.current_tokens + countTokens sentence ≤ chunk_size := by
        rcases Decidable.em
          (st.current_tokens + countTokens sentence > chunk_size) with hgt | hgt
        · exact absurd ⟨hgt, hnil⟩ hcond
        · omega
      refine ⟨?_, ?_, hchunks⟩
      · intro h
        simp at h
      · dsimp only
        omega

theorem foldl_chunkStep_inv (chunk_size chunk_overlap : Nat)
    (metadata : List (String × String)) :
    ∀ (sentences : List String) (st : ChunkState),
      chunkInv chunk_size chunk_overlap st →
      (∀ s ∈ sentences, countTokens s ≤ chunk_size) →
      chunkInv chunk_size chunk_overlap
        (sentences.foldl (chunkStep chunk_size chunk_overlap metadata) st) := by
  intro sentences
  induction sentences with
  | nil => intro st hinv _; exact hinv
  | cons s rest ih =>
    intro st hinv hall
    rw [List.foldl_cons]
    exact ih _
      (chunkStep_inv chunk_size chunk_overlap metadata st s hinv
        (hall s (List.mem_cons_self s rest)))
      (fun t ht => hall t (List.mem_cons_of_mem s ht))

theorem chunkFinish_bound (chunk_size chunk_overlap : Nat)
    (metadata : List (String × String)) (st : ChunkState)
    (hinv : chunkInv chunk_size chunk_overlap st) :
    ∀ c ∈ chunkFinish metadata st, c.token_count ≤ chunk_size + chunk_overlap := by
  obtain ⟨_, htok, hchunks⟩ := hinv
  intro c hc
  rw [chunkFinish] at hc
  split at hc
  · rcases List.mem_append.mp hc with hc | hc
    · exact hchunks c hc
    · rcases List.mem_singleton.mp hc with rfl
      exact htok
  · exact hchunks c hc

theorem reinsert_token_count (chunks : List Chunk) (code_blocks : List String) :
    ∀ c ∈ reinsertCodeBlocks chunks code_blocks,
      ∃ c0 ∈ chunks, c.token_count = c0.token_count := by
  intro c hc
  rw [reinsertCodeBlocks] at hc
  obtain ⟨c0, hc0, rfl⟩ := List.mem_map.mp hc
  refine ⟨c0, hc0, ?_⟩
  split <;> rfl

/-- C4 (amended): every chunk emitted by `chunk_text` has a stored
token count of at most `chunk_size + chunk_overlap` — hence at most
`1.2·chunk_size` when the overlap is at most 20% of the size — provided
no single sentence of the (code-stripped) text exceeds `chunk_size`
tokens on its own.  For an oversized sentence no bound holds (see the
counterexample). -/
theorem chunkText_true_def (chunk_size chunk_overlap : Nat)
    (metadata : List (String × String)) (text : String) :
    chunkText chunk_size chunk_overlap true metadata text =
      (if text = "" ∨ pyStrip text = "" then []
       else
         if splitBySentences (extractCodeBlocks text).2 = [] then []
         else
           if true = true ∧ (extractCodeBlocks text).1 ≠ [] then
             reinsertCodeBlocks
               (chunkFinish metadata
                 ((splitBySentences (extractCodeBlocks text).2).foldl
                   (chunkStep chunk_size chunk_overlap metadata) ⟨[], 0, 0, []⟩))
               (extractCodeBlocks text).1
           else
             chunkFinish metadata
               ((splitBySentences (extractCodeBlocks text).2).foldl
                 (chunkStep chunk_size chunk_overlap metadata) ⟨[], 0, 0, []⟩)) := rfl

theorem chunk_text_token_bound (chunk_size chunk_overlap : Nat)
    (metadata : List (String × String)) (text : String)
    (h1 : ∀ s ∈ splitBySentences (extractCodeBlocks text).2,
      countTokens s ≤ chunk_size)
    (h2 : 5 * chunk_overlap ≤ chunk_size) :
    ∀ c ∈ chunkText chunk_size chunk_overlap true metadata text,
      c.token_count ≤ chunk_size + chunk_overlap
      ∧ 5 * c.token_count ≤ 6 * chunk_size := by
  intro c hc
  rw [chunkText_true_def] at hc
  have hinv0 : chunkInv chunk_size chunk_overlap ⟨[], 0, 0, []⟩ :=
    ⟨fun _ => rfl, Nat.zero_le _, by simp [chunkInv]⟩
  have hinv := foldl_chunkStep_inv chunk_size chunk_overlap metadata
    (splitBySentences (extractCodeBlocks text).2) ⟨[], 0, 0, []⟩ hinv0 h1
  have hbound := chunkFinish_bound chunk_size chunk_overlap metadata _ hinv
  have hmain : c.token_count ≤ chunk_size + chunk_overlap := by
    split at hc
    · simp at hc
    · split at hc
      · simp at hc
      · split at hc
        · obtain ⟨c0, hc0, heq⟩ := reinsert_token_count _ _ c hc
          rw [heq]
          exact hbound c0 hc0
        · exact hbound c hc
  exact ⟨hmain, by omega⟩

/-- Witness for C4: two short sentences, size 4, no overlap. -/
theorem chunk_text_token_bound_witness :
    ((∀ s ∈ splitBySentences (extractCodeBlocks "ab. cd.").2, countTokens s ≤ 4)
      ∧ 5 * 0 ≤ 4)
    ∧ ∀ c ∈ chunkText 4 0 true [] "ab. cd.",
        c.token_count ≤ 4 + 0 ∧ 5 * c.token_count ≤ 6 * 4 :=
  ⟨⟨by decide, by decide⟩,
   chunk_text_token_bound 4 0 [] "ab. cd." (by decide) (by decide)⟩

/-- Counterexample for C4 as stated: a single 30-character sentence
with `chunk_size = 4` yields one chunk of 10 tokens, far above
`1.2·chunk_size = 4.8`. -/
theorem chunk_text_token_bound_counterexample :
    (chunkText 4 1 true [] "aaaaaaaaaaaaaaaaaaaaaaaaaaaaaa").map Chunk.token_count = [10]
    ∧ ¬ ((10 : Rat) ≤ (6 / 5) * 4) := by
  constructor
  · decide
  · norm_num

/-! ## C1 — relationship building -/

theorem buildRelationshipsDoc_error (parse : String → List Wikilink)
    (doc : Document) :
    ∃ e, buildRelationshipsDoc parse doc = .error e := by
  rw [buildRelationshipsDoc]
  rcases parse doc.raw_content with _ | ⟨w, rest⟩
  · exact ⟨.attributeError "Document object has no attribute embedding", rfl⟩
  · exact ⟨.attributeError "dict object has no attribute split", rfl⟩

/-- On any non-empty registry, `_build_relationships` raises on its
first document, `process_folders` swallows the exception, and the
relationship phase leaves every document untouched with
`relationships_built = 0`. -/
theorem relationshipPhase_noop (parse : String → List Wikilink)
    (docs : List (String × Document)) (h : docs ≠ []) :
    relationshipPhase parse docs = (docs, 0) := by
  rcases docs with _ | ⟨⟨path, doc⟩, rest⟩
  · exact absurd rfl h
  · obtain ⟨e, he⟩ := buildRelationshipsDoc_error parse doc
    rw [relationshipPhase, buildRelationshipsAll, he]
    simp

/-- The registry produced by ingesting `doc1.md` (which wiki-links
`doc2`) and `doc2.md`; `_process_document` creates documents with an
empty relationship list. -/
def c1Doc1 : Document :=
  { doc_id := "/kb/doc1.md", file_path := "/kb/doc1.md", relative_path := "doc1.md",
    source_folder := "/kb", raw_content := "# Doc 1\n\nSee [[doc2]] for more.",
    parsed_content := "# Doc 1\n\nSee [[doc2]] for more.",
    metadata := { title := some "doc1.md" }, status := .active }

def c1Doc2 : Document :=
  { doc_id := "/kb/doc2.md", file_path := "/kb/doc2.md", relative_path := "doc2.md",
    source_folder := "/kb", raw_content := "# Doc 2\n\nRelated content.",
    parsed_content := "# Doc 2\n\nRelated content.",
    metadata := { title := some "doc2.md" }, status := .active }

def c1Registry : List (String × Document) :=
  [("/kb/doc1.md", c1Doc1), ("/kb/doc2.md", c1Doc2)]

/-- C1 (code bug): `doc1.md` contains a wikilink whose target equals
`doc2.md`'s stem, yet after the relationship-building step the registry
is unchanged, `relationships_built` is 0, and no document carries any
relationship — because `_build_relationships` calls `.split` on the
parser's wikilink dicts (and reads a nonexistent `doc.embedding`
attribute), raising `AttributeError` that `process_folders` swallows. -/
theorem build_relationships_code_bug :
    ((obsidianWikilinks c1Doc1.raw_content).map (fun w => w.target) = ["doc2"]
      ∧ pathStem "/kb/doc2.md" = "doc2")
    ∧ relationshipPhase obsidianWikilinks c1Registry = (c1Registry, 0)
    ∧ buildRelationshipsDoc obsidianWikilinks c1Doc1
        = .error (.attributeError "dict object has no attribute split")
    ∧ ((relationshipPhase obsidianWikilinks c1Registry).1.all
        (fun p => p.2.relationships.isEmpty)) = true := by
  refine ⟨⟨by decide, by decide⟩, by decide, by rfl, by decide⟩

end Apptopia
